import Mathlib

/-!
Verification of the Analysis Orchestrator of the youtubeAnalyzer backend
(`app/services/analysis_orchestrator.py` and the sub-task modules
`app/tasks/transcription.py`, `app/tasks/content_analysis.py`,
`app/tasks/comment_analysis.py`, and `app/services/comment_analyzer.py`).

The embedding is shallow: Python dynamic values become the inductive `PyVal`,
machine floats are idealised as rationals, Python exceptions become
`Except PyErr`, and the side effects of one `run_analysis` call
(websocket notifications and database writes to the task row) are recorded
as an explicit event trace threaded through every embedded function.
-/

set_option maxRecDepth 4000
set_option linter.unusedVariables false

/-- A Python value as used by the orchestrator's loosely-typed dict payloads.
Numbers are idealised as rationals (Python ints and floats). -/
inductive PyVal where
  | none
  | bool (b : Bool)
  | num (q : ℚ)
  | str (s : String)
  | list (xs : List PyVal)
  | obj (fields : List (String × PyVal))

/-- Python truthiness (`bool(v)`) for the value forms the orchestrator uses. -/
def pyTruthy : PyVal → Bool
  | .none => false
  | .bool b => b
  | .num q => q != 0
  | .str s => s != ""
  | .list xs => !xs.isEmpty
  | .obj fs => !fs.isEmpty

/-- `d[k]` lookup on a dict value; `Option.none` when the key is absent
(or the value is not a dict). -/
def PyVal.lookup (v : PyVal) (k : String) : Option PyVal :=
  match v with
  | .obj fs => List.lookup k fs
  | _ => Option.none

/-- Python `d.get(k, default)`. -/
def PyVal.getD (v : PyVal) (k : String) (d : PyVal) : PyVal :=
  (v.lookup k).getD d

/-- Python `d.get(k)` (default `None`). -/
def PyVal.getN (v : PyVal) (k : String) : PyVal :=
  v.getD k PyVal.none

/-- Python `d[k] = x` on a dict value: replace the key in place or append it. -/
def PyVal.setKey (v : PyVal) (k : String) (x : PyVal) : PyVal :=
  match v with
  | .obj fs =>
    if (List.lookup k fs).isSome then
      .obj (fs.map fun p => if p.1 = k then (k, x) else p)
    else
      .obj (fs ++ [(k, x)])
  | w => w

/-- Numeric reading of a Python value (the payload slots the orchestrator
divides or compares are ints/floats; other shapes are idealised as 0). -/
def asNum : PyVal → ℚ
  | .num q => q
  | .bool b => if b then 1 else 0
  | _ => 0

/-- String reading of a Python value (used where the source treats a payload
slot as text). -/
def asStr : PyVal → String
  | .str s => s
  | _ => ""

/-- Python `len(v)` for the container forms used by the orchestrator. -/
def pyLen : PyVal → ℚ
  | .list xs => xs.length
  | .obj fs => fs.length
  | .str s => s.length
  | _ => 0

/-- `sum(d.values())` on a numeric dict. -/
def PyVal.valuesSum (v : PyVal) : ℚ :=
  match v with
  | .obj fs => (fs.map fun p => asNum p.2).sum
  | _ => 0

/-- The list of strings held by a Python list value. -/
def asStrList (v : PyVal) : List String :=
  match v with
  | .list xs => xs.map asStr
  | _ => []

/-- The Python exception kinds raised by the embedded code.  `msg` is `str(e)`. -/
inductive PyErr where
  | validation (m : String)
  | externalService (m : String)
  | analysis (m : String)
  | zeroDivision (m : String)
deriving DecidableEq

/-- `str(e)` of an exception. -/
def PyErr.msg : PyErr → String
  | .validation m => m
  | .externalService m => m
  | .analysis m => m
  | .zeroDivision m => m

/-- Python true division, raising `ZeroDivisionError` on a zero denominator. -/
def pyDiv (a b : ℚ) : Except PyErr ℚ :=
  if b = 0 then .error (.zeroDivision "division by zero")
  else .ok (a / b)

/-- Round-half-to-even to an integer, as Python's `round` ties-to-even. -/
def roundHalfEven (q : ℚ) : ℤ :=
  if q - ⌊q⌋ < 1/2 then ⌊q⌋
  else if 1/2 < q - ⌊q⌋ then ⌊q⌋ + 1
  else if ⌊q⌋ % 2 = 0 then ⌊q⌋ else ⌊q⌋ + 1

/-- Python `round(q, nd)` idealised on rationals (ties to even). -/
def pyRound (nd : ℕ) (q : ℚ) : ℚ :=
  (roundHalfEven (q * 10 ^ nd) : ℚ) / 10 ^ nd

/-- Helper for `pyWords`: walk the characters, collecting the current word
(reversed) and splitting at whitespace. -/
def wordsAux : List Char → List Char → List String
  | [], acc => if acc.isEmpty then [] else [String.mk acc.reverse]
  | c :: cs, acc =>
    if c.isWhitespace then
      if acc.isEmpty then wordsAux cs [] else String.mk acc.reverse :: wordsAux cs []
    else wordsAux cs (c :: acc)

/-- Python `s.split()`: split on whitespace runs, dropping empty pieces. -/
def pyWords (s : String) : List String :=
  wordsAux s.data []

/-- The `AnalysisStep` enum of the orchestrator. -/
inductive AnalysisStep where
  | extraction
  | transcription
  | contentAnalysis
  | commentAnalysis
  | finalization
deriving DecidableEq

/-- The string value of each `AnalysisStep` member (it is a `str` enum). -/
def AnalysisStep.label : AnalysisStep → String
  | .extraction => "extraction"
  | .transcription => "transcription"
  | .contentAnalysis => "content_analysis"
  | .commentAnalysis => "comment_analysis"
  | .finalization => "finalization"

/-- The `TaskStatus` enum of `app/models/task.py`. -/
inductive TaskStatus where
  | pending
  | processing
  | completed
  | failed
  | cancelled
deriving DecidableEq

/-- The orchestrator's `StepResult` dataclass. -/
structure StepResult where
  step : AnalysisStep
  success : Bool
  data : Option PyVal := Option.none
  error : Option String := Option.none
  duration : Option ℕ := Option.none

/-- The step weight table set up in `AnalysisOrchestrator.__init__`. -/
def stepWeights : AnalysisStep → ℚ
  | .extraction => 25
  | .transcription => 30
  | .contentAnalysis => 25
  | .commentAnalysis => 15
  | .finalization => 5

/-- `AnalysisOrchestrator._calculate_progress`. -/
def calculateProgress (completedSteps : List AnalysisStep)
    (currentStep : Option AnalysisStep) (stepProgress : ℤ) : ℚ :=
  let base := (completedSteps.map stepWeights).sum
  let total :=
    match currentStep with
    | some c => base + (stepWeights c * stepProgress) / 100
    | Option.none => base
  min total 100

/-- Python `v == s` for a string literal `s` (false on non-string values). -/
def pyEqStr (v : PyVal) (s : String) : Bool :=
  match v with
  | .str t => t = s
  | _ => false

/-- `AnalysisOrchestrator._calculate_alignment_score`. -/
def calculateAlignmentScore (contentSentiment : PyVal) (positiveRatio : ℚ) : ℚ :=
  if pyEqStr contentSentiment "positive" ∧ positiveRatio > 0.6 then 0.9
  else if pyEqStr contentSentiment "neutral" ∧ 0.3 ≤ positiveRatio ∧ positiveRatio ≤ 0.7 then 0.8
  else if pyEqStr contentSentiment "negative" ∧ positiveRatio < 0.4 then 0.7
  else 0.5

/-- Python `s.lower()`: lower-case every character (ASCII-faithful). -/
def pyLower (s : String) : String :=
  String.mk (s.data.map Char.toLower)

/-- `AnalysisOrchestrator._calculate_topic_overlap`: case-insensitive
Jaccard overlap of the two keyword lists. -/
def calculateTopicOverlap (contentTopics commentKeywords : List String) : ℚ :=
  if contentTopics.isEmpty ∨ commentKeywords.isEmpty then 0
  else
    let contentSet := (contentTopics.map pyLower).toFinset
    let commentSet := (commentKeywords.map pyLower).toFinset
    let inter := (contentSet ∩ commentSet).card
    let uni := (contentSet ∪ commentSet).card
    if uni > 0 then (inter : ℚ) / uni else 0

/-- Exception-propagating sequencing of two Python statements: if the
first raises, the exception propagates; otherwise the continuation runs. -/
def exBind {α β : Type} (x : Except PyErr α) (f : α → Except PyErr β) :
    Except PyErr β :=
  match x with
  | .error e => .error e
  | .ok a => f a

/-- `AnalysisOrchestrator._calculate_overall_score`.  The division by
`sum(sentiment_dist.values())` raises `ZeroDivisionError` when the dict is
non-empty with zero-sum counts, hence the `Except` result. -/
def calculateOverallScore (contentAnalysis commentAnalysis : PyVal) :
    Except PyErr ℚ :=
  let contentQuality :=
    asNum ((contentAnalysis.getD "quality_metrics" (.obj [])).getD
      "overall_quality" (.num 0.5))
  let sentimentDist := commentAnalysis.getD "sentiment_distribution" (.obj [])
  let structureScore :=
    asNum ((contentAnalysis.getD "content_structure" (.obj [])).getD
      "overall_structure_score" (.num 0.5))
  if pyTruthy sentimentDist then
    exBind (pyDiv (asNum (sentimentDist.getD "positive" (.num 0)))
        sentimentDist.valuesSum) fun positiveRatio =>
      let scores := [contentQuality, positiveRatio, structureScore]
      if scores.isEmpty then .ok 0.5
      else .ok (pyRound 2 (scores.sum / scores.length))
  else
    let scores := [contentQuality, structureScore]
    if scores.isEmpty then .ok 0.5
    else .ok (pyRound 2 (scores.sum / scores.length))

/-- `AnalysisOrchestrator._generate_recommendations`.  The
`negative_ratio` division can raise `ZeroDivisionError` when the sentiment
distribution is a non-empty dict whose counts sum to zero. -/
def generateRecommendations
    (contentAnalysis commentAnalysis videoInfo transcriptInfo : PyVal) :
    Except PyErr PyVal :=
  let contentStructure := contentAnalysis.getD "content_structure" (.obj [])
  let contentOptimization :=
    (if asNum (contentStructure.getD "introduction_quality" (.num 0)) < 0.7 then
      [PyVal.str "考虑改进视频开头，提高观众留存率"] else []) ++
    (if asNum (contentStructure.getD "conclusion_quality" (.num 0)) < 0.7 then
      [PyVal.str "加强视频结尾，提供明确的行动号召"] else [])
  let commentSentiment := commentAnalysis.getD "sentiment_distribution" (.obj [])
  let negativeRatioE : Except PyErr ℚ :=
    if pyTruthy commentSentiment then
      pyDiv (asNum (commentSentiment.getD "negative" (.num 0)))
        commentSentiment.valuesSum
    else .ok 0
  exBind negativeRatioE fun negativeRatio =>
    let audienceEngagement :=
      (if negativeRatio > 0.3 then
        [PyVal.str "关注负面反馈，考虑在后续内容中回应观众关切"] else []) ++
      (if asNum ((commentAnalysis.getD "creator_interaction" (.obj [])).getD
          "response_rate" (.num 0)) < 0.1 then
        [PyVal.str "增加与观众的互动，回复更多评论以提高参与度"] else [])
    let speakingRate := asNum (transcriptInfo.getD "speaking_rate_wpm" (.num 0))
    let technicalImprovements :=
      if speakingRate > 180 then [PyVal.str "考虑放慢语速，提高内容可理解性"]
      else if speakingRate < 120 then [PyVal.str "可以适当提高语速，保持观众注意力"]
      else []
    let viewCount := asNum (videoInfo.getD "view_count" (.num 0))
    let likeCount := asNum (videoInfo.getD "like_count" (.num 0))
    let strategicInsights :=
      if viewCount > 0 ∧ likeCount / viewCount < 0.02 then
        [PyVal.str "考虑优化内容质量或标题缩略图以提高点赞率"] else []
    .ok (.obj [
      ("content_optimization", .list contentOptimization),
      ("audience_engagement", .list audienceEngagement),
      ("technical_improvements", .list technicalImprovements),
      ("strategic_insights", .list strategicInsights)])

/-- `AnalysisOrchestrator._generate_cross_analysis_insights`.  The
`positive_comments / total_comments` division can raise `ZeroDivisionError`
when the sentiment distribution is non-empty with zero-sum counts. -/
def generateCrossAnalysisInsights
    (contentAnalysis commentAnalysis videoInfo transcriptInfo : PyVal) :
    Except PyErr PyVal :=
  let contentSentiment :=
    (contentAnalysis.getD "sentiment_analysis" (.obj [])).getN "overall_sentiment"
  let commentSentiment := commentAnalysis.getD "sentiment_distribution" (.obj [])
  let alignmentE : Except PyErr PyVal :=
    if pyTruthy contentSentiment ∧ pyTruthy commentSentiment then
      let positiveComments := asNum (commentSentiment.getD "positive" (.num 0))
      let totalComments :=
        if pyTruthy commentSentiment then commentSentiment.valuesSum else 1
      exBind (pyDiv positiveComments totalComments) fun positiveRatio =>
        .ok (.obj [
          ("content_tone", contentSentiment),
          ("audience_response_positive_ratio", .num positiveRatio),
          ("alignment_score",
            .num (calculateAlignmentScore contentSentiment positiveRatio))])
    else .ok (.obj [])
  exBind alignmentE fun alignment =>
    let viewCount := asNum (videoInfo.getD "view_count" (.num 0))
    let likeCount := asNum (videoInfo.getD "like_count" (.num 0))
    let commentCount := pyLen (commentAnalysis.getD "comments" (.list []))
    let engagementPatterns :=
      if viewCount > 0 then
        let engagementRate := (likeCount + commentCount) / viewCount
        PyVal.obj [
          ("like_to_view_ratio", .num (likeCount / viewCount)),
          ("comment_to_view_ratio", .num (commentCount / viewCount)),
          ("overall_engagement_rate", .num engagementRate),
          ("engagement_quality",
            .str (if engagementRate > 0.05 then "high"
              else if engagementRate > 0.01 then "medium" else "low"))]
      else .obj []
    let contentTopics :=
      (contentAnalysis.getD "topic_analysis" (.obj [])).getD "main_topics" (.list [])
    let commentKeywords := commentAnalysis.getD "key_themes" (.list [])
    let topicResonance :=
      if pyTruthy contentTopics ∧ pyTruthy commentKeywords then
        let topicOverlap :=
          calculateTopicOverlap (asStrList contentTopics) (asStrList commentKeywords)
        PyVal.obj [
          ("content_topics", .list ((asStrList contentTopics).take 5 |>.map .str)),
          ("audience_themes", .list ((asStrList commentKeywords).take 5 |>.map .str)),
          ("topic_overlap_score", .num topicOverlap),
          ("resonance_level",
            .str (if topicOverlap > 0.6 then "high"
              else if topicOverlap > 0.3 then "medium" else "low"))]
      else .obj []
    .ok (.obj [
      ("content_audience_alignment", alignment),
      ("engagement_patterns", engagementPatterns),
      ("sentiment_correlation", .obj []),
      ("topic_resonance", topicResonance)])

/-- `AnalysisOrchestrator._generate_comprehensive_report`.  `nowT` stands for
`datetime.utcnow()` at synthesis time (timestamps are abstracted as the run
clock; the claims do not touch their text form). -/
def generateComprehensiveReport
    (extractionData transcriptionData contentData commentData opts : PyVal)
    (nowT : ℕ) : Except PyErr PyVal :=
  let videoInfo := extractionData.getD "video_info" (.obj [])
  let fullText := asStr (transcriptionData.getD "full_text" (.str ""))
  let wordCount : ℚ := (pyWords fullText).length
  let transcriptInfo := PyVal.obj [
    ("language", transcriptionData.getN "language"),
    ("duration", transcriptionData.getN "duration"),
    ("full_text", .str fullText),
    ("word_count", .num wordCount)]
  let contentAnalysis := contentData.getD "analysis" (.obj [])
  let commentAnalysis := commentData.getD "analysis" (.obj [])
  exBind (generateCrossAnalysisInsights contentAnalysis commentAnalysis
      videoInfo transcriptInfo) fun crossAnalysisInsights =>
  exBind (generateRecommendations contentAnalysis commentAnalysis
      videoInfo transcriptInfo) fun recommendations =>
  exBind (calculateOverallScore contentAnalysis commentAnalysis) fun overallScore =>
    let transcriptDuration := transcriptInfo.getN "duration"
    .ok (.obj [
      ("summary", .obj [
        ("video_title", videoInfo.getN "title"),
        ("channel", videoInfo.getN "channel_title"),
        ("duration_minutes",
          .num (pyRound 1 (asNum (videoInfo.getD "duration" (.num 0)) / 60))),
        ("view_count", videoInfo.getN "view_count"),
        ("like_count", videoInfo.getN "like_count"),
        ("comment_count", .num (pyLen (extractionData.getD "comments" (.list [])))),
        ("overall_score", .num overallScore),
        ("analysis_timestamp", .num (nowT : ℚ))]),
      ("transcript_analysis", .obj [
        ("language", transcriptInfo.getN "language"),
        ("word_count", .num wordCount),
        ("duration_seconds", transcriptDuration),
        ("speaking_rate_wpm",
          if pyTruthy transcriptDuration then
            .num (pyRound 1 (wordCount / (asNum transcriptDuration / 60)))
          else .num 0)]),
      ("content_insights", contentAnalysis),
      ("audience_feedback", commentAnalysis),
      ("cross_analysis_insights", crossAnalysisInsights),
      ("recommendations", recommendations),
      ("metadata", .obj [
        ("analysis_options", opts),
        ("processing_timestamp", .num (nowT : ℚ)),
        ("data_sources", .list [.str "youtube_api",
          .str "whisper_transcription", .str "openai_analysis"])])])

/-! ## Collaborator data shapes -/

/-- The video metadata record returned by `YouTubeExtractor.get_video_info`. -/
structure VideoInfo where
  id : String
  title : String
  description : String
  channelId : String
  channelTitle : String
  duration : ℚ
  viewCount : ℚ
  likeCount : ℚ
  uploadDate : String
  thumbnailUrl : String
  language : Option String

/-- One comment record returned by `YouTubeExtractor.get_comments`. -/
structure CommentRec where
  id : String
  text : String
  author : String
  authorChannelId : Option String
  likeCount : ℚ
  replyCount : ℚ
  publishedAt : String
  isAuthorReply : Bool
  parentId : Option String

/-- One transcript segment (`end` is a Lean keyword, hence `stop`). -/
structure Segment where
  start : ℚ
  stop : ℚ
  text : String
  confidence : ℚ

/-- The transcript returned by `TranscriptionService.transcribe_audio`. -/
structure TranscriptResult where
  language : String
  languageConfidence : ℚ
  duration : ℚ
  wordCount : ℚ
  fullText : String
  segments : List Segment

/-- The `AuthorEngagement` dataclass of `comment_analyzer.py`. -/
structure AuthorEngagement where
  totalReplies : ℚ
  replyRate : ℚ
  avgResponseTime : Option ℚ
  sentimentInReplies : List (String × ℚ)
  engagementQuality : ℚ

/-- The `CommentTheme` dataclass of `comment_analyzer.py`. -/
structure CommentTheme where
  theme : String
  keywords : List String
  commentCount : ℚ
  sentimentDistribution : List (String × ℚ)

/-- The `CommentInsights` dataclass of `comment_analyzer.py`. -/
structure CommentInsights where
  totalComments : ℚ
  sentimentDistribution : List (String × ℚ)
  mainThemes : List CommentTheme
  authorEngagement : AuthorEngagement
  topComments : List PyVal
  spamDetection : PyVal
  engagementMetrics : PyVal
  recommendations : List String

/-- `CommentAnalyzer._empty_insights`. -/
def emptyInsights : CommentInsights where
  totalComments := 0
  sentimentDistribution := [("positive", 0), ("negative", 0), ("neutral", 0)]
  mainThemes := []
  authorEngagement :=
    { totalReplies := 0
      replyRate := 0
      avgResponseTime := Option.none
      sentimentInReplies := [("positive", 0), ("negative", 0), ("neutral", 0)]
      engagementQuality := 0 }
  topComments := []
  spamDetection := .obj [("duplicate_comments", .num 0),
    ("suspicious_patterns", .num 0), ("spam_ratio", .num 0)]
  engagementMetrics := .obj [("total_comments", .num 0), ("total_likes", .num 0),
    ("avg_likes_per_comment", .num 0), ("reply_engagement_rate", .num 0),
    ("comment_to_view_ratio", .num 0), ("engagement_score", .num 0)]
  recommendations := ["暂无评论数据可供分析"]

/-! ## Event-trace model of one `run_analysis` call

Webwsocket notifications and writes to the task row are recorded as events,
in program order.  The `asyncio.gather` of the Parallel Analysis step is
serialised content-branch-first (the two branches' real interleaving is
nondeterministic; every claim settled below is insensitive to the chosen
serialisation or is a statement about a single branch's own events). -/

/-- The columns written by one SQL `update` of the task row
(`Option.none` = column untouched). -/
structure DbWrite where
  status : Option TaskStatus
  currentStep : Option (Option String)
  progressCol : Option ℕ
  resultData : Option PyVal
  errorMessage : Option String
  completedAt : Bool

/-- An update statement touching no column. -/
def DbWrite.empty : DbWrite :=
  ⟨Option.none, Option.none, Option.none, Option.none, Option.none, false⟩

/-- The payload of a `send_task_failed` call: the orchestrator sends
`message` plus the step-result map; the content-analysis task sends
an `error` string. -/
inductive FailPayload where
  | orchestrator (message : String) (stepResults : List (AnalysisStep × StepResult))
  | contentTask (error : String)

/-- One observable side effect of a run. -/
inductive Event where
  | progress (taskId : String) (percent : ℕ) (message : String)
      (currentStep : Option String) (fromSubtask : Bool)
  | dbWrite (taskId : String) (w : DbWrite)
  | taskCompleted (taskId : String) (result : PyVal)
  | taskFailed (taskId : String) (payload : FailPayload)

/-- The task row (`AnalysisTask`) columns the run touches. -/
structure TaskRecord where
  status : TaskStatus
  currentStep : Option String
  progressCol : Option ℕ
  resultData : Option PyVal
  errorMessage : Option String
  completedAt : Bool

/-- A fresh PENDING task row. -/
def initialTask : TaskRecord :=
  ⟨.pending, Option.none, Option.none, Option.none, Option.none, false⟩

/-- Apply one update statement to the task row. -/
def dbApply (w : DbWrite) (t : TaskRecord) : TaskRecord where
  status := w.status.getD t.status
  currentStep := w.currentStep.getD t.currentStep
  progressCol := match w.progressCol with
    | some p => some p
    | Option.none => t.progressCol
  resultData := match w.resultData with
    | some v => some v
    | Option.none => t.resultData
  errorMessage := match w.errorMessage with
    | some m => some m
    | Option.none => t.errorMessage
  completedAt := t.completedAt || w.completedAt

/-- Result of an embedded call: value, events it emitted (in order), the
task row afterwards, and the clock afterwards (external collaborator calls
advance the clock by one abstract time unit). -/
structure Out (α : Type) where
  val : α
  evts : List Event
  task : TaskRecord
  now : ℕ

/-- The oracle fixing every collaborator's behaviour for one run: API-key
presence for the service constructors, the task-row lookup, and the result
of each external call.  `contentAnalyze` stands for
`content_analyzer.analyze` together with the mechanical dict conversion of
`analyze_content_task` (its value is the task's `analysis_result` dict);
`commentAnalyze` is the non-empty-input path of
`CommentAnalyzer.analyze_comments`. -/
structure Env where
  ytKeyPresent : Bool
  openaiKeyPresent : Bool
  taskExists : Bool
  extractVideoId : String → Option String
  getVideoInfo : String → Except PyErr VideoInfo
  downloadAudio : String → Except PyErr String
  getComments : String → ℕ → Except PyErr (List CommentRec)
  validateAudioFile : String → Bool
  detectLanguage : String → Except PyErr (String × ℚ)
  transcribeAudio : String → PyVal → Except PyErr TranscriptResult
  contentAnalyze : PyVal → PyVal → Except PyErr PyVal
  commentAnalyze : List PyVal → PyVal → Except PyErr CommentInsights

/-- `CommentAnalyzer.analyze_comments`: a zero-comment input yields the
well-defined empty result; otherwise the LLM-driven analysis runs, any
exception being wrapped into `AnalysisError("评论分析失败: ...")`. -/
def analyzeComments (env : Env) (commentsData : List PyVal) (videoInfo : PyVal) :
    Except PyErr CommentInsights :=
  if commentsData.isEmpty then .ok emptyInsights
  else
    match env.commentAnalyze commentsData videoInfo with
    | .ok r => .ok r
    | .error e => .error (.analysis ("评论分析失败: " ++ e.msg))

/-- `None`-aware string payload slot. -/
def optStr : Option String → PyVal
  | some s => .str s
  | Option.none => PyVal.none

/-- `None`-aware numeric payload slot. -/
def optNum : Option ℚ → PyVal
  | some q => .num q
  | Option.none => PyVal.none

/-- The comment dict built by the extraction step and the comment task. -/
def commentToPy (c : CommentRec) : PyVal := .obj [
  ("id", .str c.id),
  ("text", .str c.text),
  ("author", .str c.author),
  ("author_channel_id", optStr c.authorChannelId),
  ("like_count", .num c.likeCount),
  ("reply_count", .num c.replyCount),
  ("published_at", .str c.publishedAt),
  ("is_author_reply", .bool c.isAuthorReply),
  ("parent_id", optStr c.parentId)]

/-- A numeric dict payload slot. -/
def distPy (d : List (String × ℚ)) : PyVal :=
  .obj (d.map fun p => (p.1, .num p.2))

/-- The `analysis_result` dict built by `analyze_comments_task` from a
`CommentInsights` value. -/
def commentInsightsToResult (ci : CommentInsights) : PyVal := .obj [
  ("total_comments", .num ci.totalComments),
  ("sentiment_distribution", distPy ci.sentimentDistribution),
  ("main_themes", .list (ci.mainThemes.map fun th => .obj [
    ("theme", .str th.theme),
    ("keywords", .list (th.keywords.map .str)),
    ("comment_count", .num th.commentCount),
    ("sentiment_distribution", distPy th.sentimentDistribution)])),
  ("author_engagement", .obj [
    ("total_replies", .num ci.authorEngagement.totalReplies),
    ("reply_rate", .num ci.authorEngagement.replyRate),
    ("avg_response_time", optNum ci.authorEngagement.avgResponseTime),
    ("sentiment_in_replies", distPy ci.authorEngagement.sentimentInReplies),
    ("engagement_quality", .num ci.authorEngagement.engagementQuality)]),
  ("top_comments", .list ci.topComments),
  ("spam_detection", ci.spamDetection),
  ("engagement_metrics", ci.engagementMetrics),
  ("recommendations", .list (ci.recommendations.map .str))]

/-- The `transcription_result` dict built by `transcribe_audio_task`. -/
def transcriptionResultPy (tr : TranscriptResult) : PyVal := .obj [
  ("language", .str tr.language),
  ("language_confidence", .num tr.languageConfidence),
  ("duration", .num tr.duration),
  ("word_count", .num tr.wordCount),
  ("full_text", .str tr.fullText),
  ("segments", .list (tr.segments.map fun sg => .obj [
    ("start", .num sg.start),
    ("end", .num sg.stop),
    ("text", .str sg.text),
    ("confidence", .num sg.confidence)]))]

/-- The elements of a Python list value. -/
def asList : PyVal → List PyVal
  | .list xs => xs
  | _ => []

/-! ## Sub-task embeddings -/

/-- Continuation of `transcribe_audio_task` after language resolution:
transcription call, result dict, `result_data` merge, final tick. -/
def transcribeRest (env : Env) (taskId audioFilePath : String) (detected : PyVal)
    (t : TaskRecord) (now : ℕ) (acc : List Event) : Out (Except PyErr PyVal) :=
  let e3 := Event.progress taskId 40 "开始音频转录" (some "音频转录") true
  match env.transcribeAudio audioFilePath detected with
  | .error e => ⟨.error e, acc ++ [e3], t, now + 1⟩
  | .ok tr =>
    let e4 := Event.progress taskId 80 "处理转录结果" (some "结果处理") true
    let transcriptionResult := transcriptionResultPy tr
    let merged := (t.resultData.getD (.obj [])).setKey "transcription" transcriptionResult
    let w : DbWrite := { DbWrite.empty with resultData := some merged }
    let e5 := Event.dbWrite taskId w
    let e6 := Event.progress taskId 100 "转录完成" Option.none true
    ⟨.ok transcriptionResult, acc ++ [e3, e4, e5, e6], dbApply w t, now + 1⟩

/-- The `try` body of `transcribe_audio_task`: task lookup, audio
validation, language detection (skipped when a language was passed),
then `transcribeRest`. -/
def transcribeBody (env : Env) (taskId audioFilePath : String) (language : PyVal)
    (t : TaskRecord) (now : ℕ) : Out (Except PyErr PyVal) :=
  if ¬ env.taskExists then
    ⟨.error (.validation ("Task not found: " ++ taskId)), [], t, now⟩
  else
    let e1 := Event.progress taskId 10 "初始化转录服务" (some "初始化转录服务") true
    if ¬ env.validateAudioFile audioFilePath then
      ⟨.error (.validation ("音频文件无效: " ++ audioFilePath)), [e1], t, now⟩
    else
      let e2 := Event.progress taskId 20 "检测音频语言" (some "语言检测") true
      if ¬ pyTruthy language then
        match env.detectLanguage audioFilePath with
        | .error e => ⟨.error e, [e1, e2], t, now + 1⟩
        | .ok dl =>
          let detected := if dl.2 < 0.5 then PyVal.none else PyVal.str dl.1
          transcribeRest env taskId audioFilePath detected t (now + 1) [e1, e2]
      else
        transcribeRest env taskId audioFilePath language t now [e1, e2]

/-- `transcribe_audio_task`: on any exception of the body the task row is
marked FAILED with `error_message = "转录失败: " + str(e)` and the original
exception is re-raised. -/
def transcribeAudioTask (env : Env) (taskId audioFilePath : String)
    (language : PyVal) (t : TaskRecord) (now : ℕ) : Out (Except PyErr PyVal) :=
  let b := transcribeBody env taskId audioFilePath language t now
  match b.val with
  | .ok _ => b
  | .error e =>
    let w : DbWrite := { DbWrite.empty with
      status := some .failed
      errorMessage := some ("转录失败: " ++ e.msg) }
    ⟨.error e, b.evts ++ [Event.dbWrite taskId w], dbApply w b.task, b.now⟩

/-- The `try` body of `analyze_content_task`: task lookup, PROCESSING
write with progress 85, transcript/video-info validation, analysis call,
`result_data` merge (from the task row read at the top) with progress 95. -/
def contentBody (env : Env) (taskId : String) (transcriptData videoInfo : PyVal)
    (t : TaskRecord) (now : ℕ) : Out (Except PyErr PyVal) :=
  if ¬ env.taskExists then
    ⟨.error (.validation ("Task " ++ taskId ++ " not found")), [], t, now⟩
  else
    let w1 : DbWrite := { DbWrite.empty with
      status := some .processing
      currentStep := some (some "content_analysis")
      progressCol := some 85 }
    let e1 := Event.dbWrite taskId w1
    let e2 := Event.progress taskId 85 "Starting content analysis..."
      (some "content_analysis") true
    let t1 := dbApply w1 t
    if ¬ pyTruthy transcriptData ∨ ¬ pyTruthy (transcriptData.getN "full_text") then
      ⟨.error (.validation "Transcript data is required for content analysis"),
        [e1, e2], t1, now⟩
    else if ¬ pyTruthy videoInfo then
      ⟨.error (.validation "Video info is required for content analysis"),
        [e1, e2], t1, now⟩
    else
      match env.contentAnalyze transcriptData videoInfo with
      | .error e => ⟨.error e, [e1, e2], t1, now + 1⟩
      | .ok analysisResult =>
        let merged := (t.resultData.getD (.obj [])).setKey
          "content_analysis" analysisResult
        let w2 : DbWrite := { DbWrite.empty with
          resultData := some merged
          progressCol := some 95 }
        let e3 := Event.dbWrite taskId w2
        let e4 := Event.progress taskId 95 "Content analysis completed successfully"
          (some "content_analysis") true
        ⟨.ok analysisResult, [e1, e2, e3, e4], dbApply w2 t1, now + 1⟩

/-- `analyze_content_task`: on exception the task row is marked FAILED
(`error_message` is `str(e)` for a `ValidationError`, otherwise prefixed
with "Content analysis failed: "), `send_task_failed` is invoked with that
message, and the original exception is re-raised. -/
def analyzeContentTask (env : Env) (taskId : String)
    (transcriptData videoInfo : PyVal) (t : TaskRecord) (now : ℕ) :
    Out (Except PyErr PyVal) :=
  let b := contentBody env taskId transcriptData videoInfo t now
  match b.val with
  | .ok _ => b
  | .error e =>
    let emsg := match e with
      | .validation m => m
      | other => "Content analysis failed: " ++ other.msg
    let w : DbWrite := { DbWrite.empty with
      status := some .failed
      errorMessage := some emsg
      currentStep := some (some "content_analysis") }
    ⟨.error e,
      b.evts ++ [Event.dbWrite taskId w, Event.taskFailed taskId (.contentTask emsg)],
      dbApply w b.task, b.now⟩

/-- Continuation of `analyze_comments_task` once the comment dicts are at
hand: analyzer call, result dict, `result_data` merge, final tick. -/
def commentRest (env : Env) (taskId : String) (commentsData : List PyVal)
    (videoInfoDict : PyVal) (t : TaskRecord) (now : ℕ) (acc : List Event) :
    Out (Except PyErr PyVal) :=
  let e4 := Event.progress taskId 40
    ("开始分析 " ++ toString commentsData.length ++ " 条评论") (some "评论分析") true
  match analyzeComments env commentsData videoInfoDict with
  | .error e => ⟨.error e, acc ++ [e4], t, now + 1⟩
  | .ok insights =>
    let e5 := Event.progress taskId 80 "处理分析结果" (some "结果处理") true
    let analysisResult := commentInsightsToResult insights
    let merged := (t.resultData.getD (.obj [])).setKey
      "comment_analysis" analysisResult
    let w : DbWrite := { DbWrite.empty with resultData := some merged }
    let e6 := Event.dbWrite taskId w
    let e7 := Event.progress taskId 100 "评论分析完成" (some "分析完成") true
    ⟨.ok analysisResult, acc ++ [e4, e5, e6, e7], dbApply w t, now + 1⟩

/-- The `try` body of `analyze_comments_task`: task lookup, video-info
fetch, comment refetch when the passed list is falsy, then `commentRest`. -/
def commentBody (env : Env) (taskId videoId : String) (commentsData : PyVal)
    (t : TaskRecord) (now : ℕ) : Out (Except PyErr PyVal) :=
  if ¬ env.taskExists then
    ⟨.error (.validation ("Task not found: " ++ taskId)), [], t, now⟩
  else
    let e1 := Event.progress taskId 10 "初始化评论分析服务" (some "初始化评论分析") true
    let e2 := Event.progress taskId 20 "获取视频信息" (some "视频信息获取") true
    match env.getVideoInfo videoId with
    | .error e => ⟨.error e, [e1, e2], t, now + 1⟩
    | .ok vi =>
      let videoInfoDict := PyVal.obj [
        ("id", .str vi.id),
        ("title", .str vi.title),
        ("channel_id", .str vi.channelId),
        ("channel_title", .str vi.channelTitle),
        ("view_count", .num vi.viewCount),
        ("like_count", .num vi.likeCount),
        ("duration", .num vi.duration)]
      if ¬ pyTruthy commentsData then
        let e3 := Event.progress taskId 30 "提取评论数据" (some "评论数据提取") true
        match env.getComments videoId 1000 with
        | .error e => ⟨.error e, [e1, e2, e3], t, now + 2⟩
        | .ok cs =>
          commentRest env taskId (cs.map commentToPy) videoInfoDict t (now + 2)
            [e1, e2, e3]
      else
        commentRest env taskId (asList commentsData) videoInfoDict t (now + 1)
          [e1, e2]

/-- `analyze_comments_task`: the analyzer/extractor constructors run before
the `try` block (a missing API key propagates raw); on exception of the body
the task row is marked FAILED with `error_message = "评论分析失败: " + str(e)`,
a progress-0 failure tick is sent, and `AnalysisError("评论分析失败: ...")`
is raised. -/
def analyzeCommentsTask (env : Env) (taskId videoId : String)
    (commentsData : PyVal) (t : TaskRecord) (now : ℕ) : Out (Except PyErr PyVal) :=
  if ¬ env.openaiKeyPresent then
    ⟨.error (.analysis "OpenAI API key is required for comment analysis"), [], t, now⟩
  else if ¬ env.ytKeyPresent then
    ⟨.error (.validation "YouTube API key is required"), [], t, now⟩
  else
    let b := commentBody env taskId videoId commentsData t now
    match b.val with
    | .ok _ => b
    | .error e =>
      let emsg := "评论分析失败: " ++ e.msg
      let w : DbWrite := { DbWrite.empty with
        status := some .failed
        errorMessage := some emsg }
      ⟨.error (.analysis emsg),
        b.evts ++ [Event.dbWrite taskId w,
          Event.progress taskId 0 emsg (some "分析失败") true],
        dbApply w b.task, b.now⟩

/-! ## Orchestrator step runners -/

/-- A failed `StepResult` as built in the runners' `except` clauses. -/
def failStep (s : AnalysisStep) (msg : String) (dur : ℕ) : StepResult :=
  ⟨s, false, Option.none, some msg, some dur⟩

/-- A successful `StepResult` as built at the end of each runner. -/
def okStep (s : AnalysisStep) (data : PyVal) (dur : ℕ) : StepResult :=
  ⟨s, true, some data, Option.none, some dur⟩

/-- The `data` slot of a `StepResult` as a Python value. -/
def stepDataPy (r : StepResult) : PyVal :=
  match r.data with
  | some d => d
  | Option.none => PyVal.none

/-- `AnalysisOrchestrator._run_extraction_step`: five extraction-scale
progress ticks, the four extractor calls, the extraction-data dict; any
exception yields a failed `StepResult` with the message and duration. -/
def runExtractionStep (env : Env) (taskId youtubeUrl : String) (opts : PyVal)
    (t : TaskRecord) (now : ℕ) : Out StepResult :=
  let e1 := Event.progress taskId 5 "初始化YouTube提取器" (some "extraction") false
  if ¬ env.ytKeyPresent then
    ⟨failStep .extraction "YouTube API key is required" (now - now), [e1], t, now⟩
  else
    match env.extractVideoId youtubeUrl with
    | Option.none =>
      ⟨failStep .extraction ("无效的YouTube URL: " ++ youtubeUrl) (now - now),
        [e1], t, now⟩
    | some videoId =>
      let e2 := Event.progress taskId 10 "获取视频信息" (some "extraction") false
      match env.getVideoInfo videoId with
      | .error e =>
        ⟨failStep .extraction e.msg (now + 1 - now), [e1, e2], t, now + 1⟩
      | .ok vi =>
        let e3 := Event.progress taskId 15 "下载音频文件" (some "extraction") false
        match env.downloadAudio videoId with
        | .error e =>
          ⟨failStep .extraction e.msg (now + 2 - now), [e1, e2, e3], t, now + 2⟩
        | .ok audioFilePath =>
          let e4 := Event.progress taskId 20 "获取评论数据" (some "extraction") false
          match env.getComments videoId 1000 with
          | .error e =>
            ⟨failStep .extraction e.msg (now + 3 - now), [e1, e2, e3, e4], t, now + 3⟩
          | .ok comments =>
            let extractionData := PyVal.obj [
              ("video_info", .obj [
                ("id", .str vi.id),
                ("title", .str vi.title),
                ("description", .str vi.description),
                ("channel_id", .str vi.channelId),
                ("channel_title", .str vi.channelTitle),
                ("duration", .num vi.duration),
                ("view_count", .num vi.viewCount),
                ("like_count", .num vi.likeCount),
                ("published_at", .str vi.uploadDate),
                ("thumbnail_url", .str vi.thumbnailUrl),
                ("language", optStr vi.language)]),
              ("audio_file_path", .str audioFilePath),
              ("comments", .list (comments.map commentToPy)),
              ("video_id", .str videoId)]
            let e5 := Event.progress taskId 25 "数据提取完成" (some "extraction") false
            ⟨okStep .extraction extractionData (now + 3 - now),
              [e1, e2, e3, e4, e5], t, now + 3⟩

/-- `AnalysisOrchestrator._run_transcription_step`: input checks, the
30-percent tick, the transcription sub-task, the 55-percent tick; any
exception yields a failed `StepResult`. -/
def runTranscriptionStep (env : Env) (taskId : String)
    (extractionData : PyVal) (opts : PyVal) (t : TaskRecord) (now : ℕ) :
    Out StepResult :=
  if ¬ pyTruthy extractionData then
    ⟨failStep .transcription "提取数据未找到" (now - now), [], t, now⟩
  else
    let audioFilePath := extractionData.getN "audio_file_path"
    if ¬ pyTruthy audioFilePath then
      ⟨failStep .transcription "音频文件路径未找到" (now - now), [], t, now⟩
    else
      let language := opts.getN "language"
      let e1 := Event.progress taskId 30 "开始音频转录" (some "transcription") false
      let sub := transcribeAudioTask env taskId (asStr audioFilePath) language t now
      match sub.val with
      | .error e =>
        ⟨failStep .transcription e.msg (sub.now - now), [e1] ++ sub.evts,
          sub.task, sub.now⟩
      | .ok data =>
        let e2 := Event.progress taskId 55 "音频转录完成" (some "transcription") false
        ⟨okStep .transcription data (sub.now - now), [e1] ++ sub.evts ++ [e2],
          sub.task, sub.now⟩

/-- `AnalysisOrchestrator._run_content_analysis`: input checks and the
content-analysis sub-task; any exception yields a failed `StepResult`. -/
def runContentAnalysis (env : Env) (taskId : String)
    (extractionData transcriptionData : PyVal) (opts : PyVal)
    (t : TaskRecord) (now : ℕ) : Out StepResult :=
  if ¬ pyTruthy extractionData ∨ ¬ pyTruthy transcriptionData then
    ⟨failStep .contentAnalysis "分析数据不完整" (now - now), [], t, now⟩
  else
    let videoInfo := extractionData.getN "video_info"
    if ¬ pyTruthy videoInfo then
      ⟨failStep .contentAnalysis "视频信息未找到" (now - now), [], t, now⟩
    else
      let sub := analyzeContentTask env taskId transcriptionData videoInfo t now
      match sub.val with
      | .error e =>
        ⟨failStep .contentAnalysis e.msg (sub.now - now), sub.evts, sub.task, sub.now⟩
      | .ok data =>
        ⟨okStep .contentAnalysis data (sub.now - now), sub.evts, sub.task, sub.now⟩

/-- `AnalysisOrchestrator._run_comment_analysis`: input checks and the
comment-analysis sub-task; any exception yields a failed `StepResult`. -/
def runCommentAnalysis (env : Env) (taskId : String) (extractionData : PyVal)
    (opts : PyVal) (t : TaskRecord) (now : ℕ) : Out StepResult :=
  if ¬ pyTruthy extractionData then
    ⟨failStep .commentAnalysis "提取数据未找到" (now - now), [], t, now⟩
  else
    let videoId := extractionData.getN "video_id"
    let commentsData := extractionData.getN "comments"
    if ¬ pyTruthy videoId then
      ⟨failStep .commentAnalysis "视频ID未找到" (now - now), [], t, now⟩
    else
      let sub := analyzeCommentsTask env taskId (asStr videoId) commentsData t now
      match sub.val with
      | .error e =>
        ⟨failStep .commentAnalysis e.msg (sub.now - now), sub.evts, sub.task, sub.now⟩
      | .ok data =>
        ⟨okStep .commentAnalysis data (sub.now - now), sub.evts, sub.task, sub.now⟩

/-- `AnalysisOrchestrator._run_parallel_analysis_steps`: the bracketing
60/85 ticks around the two analysis branches.  The branches run under
`asyncio.gather`; the model serialises them content-first (each branch's
own events keep their program order).  The runners never raise, so the
`isinstance(..., Exception)` conversion arms of the source are vacuous;
the missing-input check raises before the branches start. -/
def runParallelAnalysisSteps (env : Env) (taskId : String)
    (extractionData transcriptionData : PyVal) (opts : PyVal)
    (t : TaskRecord) (now : ℕ) : Out (Except PyErr (StepResult × StepResult)) :=
  let e1 := Event.progress taskId 60 "开始内容和评论分析" Option.none false
  if ¬ pyTruthy extractionData ∨ ¬ pyTruthy transcriptionData then
    ⟨.error (.externalService "分析数据不完整"), [e1], t, now⟩
  else
    let c := runContentAnalysis env taskId extractionData transcriptionData opts t now
    let k := runCommentAnalysis env taskId extractionData opts c.task c.now
    let e2 := Event.progress taskId 85 "内容和评论分析完成" Option.none false
    ⟨.ok (c.val, k.val), [e1] ++ c.evts ++ k.evts ++ [e2], k.task, k.now⟩

/-- The `data` slot a step contributes to finalization: the step's payload
when the step is present with truthy data, else an empty dict
(`result.data if result and result.data else {}`). -/
def stepDataOrEmpty (stepResults : List (AnalysisStep × StepResult))
    (s : AnalysisStep) : PyVal :=
  match List.lookup s stepResults with
  | some r =>
    match r.data with
    | some d => if pyTruthy d then d else .obj []
    | Option.none => .obj []
  | Option.none => .obj []

/-- `AnalysisOrchestrator._run_finalization_step`: the 90-percent tick, the
pure report synthesis from the accumulated step results (a failed or absent
step contributes an empty dict), the 100-percent tick; a synthesis exception
yields a failed `StepResult`. -/
def runFinalizationStep (env : Env) (taskId : String)
    (stepResults : List (AnalysisStep × StepResult)) (opts : PyVal)
    (t : TaskRecord) (now : ℕ) : Out StepResult :=
  let e1 := Event.progress taskId 90 "生成综合分析报告" (some "finalization") false
  match generateComprehensiveReport (stepDataOrEmpty stepResults .extraction)
      (stepDataOrEmpty stepResults .transcription)
      (stepDataOrEmpty stepResults .contentAnalysis)
      (stepDataOrEmpty stepResults .commentAnalysis) opts now with
  | .error e => ⟨failStep .finalization e.msg (now - now), [e1], t, now⟩
  | .ok report =>
    let e2 := Event.progress taskId 100 "分析完成" (some "finalization") false
    ⟨okStep .finalization report (now - now), [e1, e2], t, now⟩

/-- `AnalysisOrchestrator._update_task_status`: one update statement
setting `status` and `current_step` (and `completed_at` when given). -/
def updateTaskStatus (taskId : String) (status : TaskStatus)
    (currentStep : Option String) (completedAt : Bool) (t : TaskRecord) (now : ℕ) :
    Out Unit :=
  let w : DbWrite := { DbWrite.empty with
    status := some status
    currentStep := some currentStep
    completedAt := completedAt }
  ⟨(), [Event.dbWrite taskId w], dbApply w t, now⟩

/-- The `except` clause of `run_analysis`: FAILED status write carrying
`"分析失败: " + str(e)` as the `current_step` text, one `send_task_failed`
with the message and the step results gathered so far, then re-raise. -/
def failFinish (taskId : String) (e : PyErr)
    (stepResults : List (AnalysisStep × StepResult)) (acc : List Event)
    (t : TaskRecord) (now : ℕ) : Out (Except PyErr Unit) :=
  let w : DbWrite := { DbWrite.empty with
    status := some .failed
    currentStep := some (some ("分析失败: " ++ e.msg)) }
  ⟨.error e,
    acc ++ [Event.dbWrite taskId w,
      Event.taskFailed taskId (.orchestrator e.msg stepResults)],
    dbApply w t, now⟩

/-- `AnalysisOrchestrator.run_analysis`: PROCESSING write, the gated step
sequence, COMPLETED write plus `send_task_completed` on success, and the
`except` clause on any step failure. -/
def runAnalysis (env : Env) (taskId youtubeUrl : String) (opts : PyVal)
    (t0 : TaskRecord) (now0 : ℕ) : Out (Except PyErr Unit) :=
  let u := updateTaskStatus taskId .processing (some "开始分析") false t0 now0
  let ex := runExtractionStep env taskId youtubeUrl opts u.task u.now
  let sr1 := [(AnalysisStep.extraction, ex.val)]
  if ¬ ex.val.success then
    failFinish taskId (.externalService ("数据提取失败: " ++ (ex.val.error.getD "None")))
      sr1 (u.evts ++ ex.evts) ex.task ex.now
  else
    let tr := runTranscriptionStep env taskId (stepDataPy ex.val) opts ex.task ex.now
    let sr2 := sr1 ++ [(AnalysisStep.transcription, tr.val)]
    if ¬ tr.val.success then
      failFinish taskId (.externalService ("音频转录失败: " ++ (tr.val.error.getD "None")))
        sr2 (u.evts ++ ex.evts ++ tr.evts) tr.task tr.now
    else
      let par := runParallelAnalysisSteps env taskId (stepDataPy ex.val)
        (stepDataPy tr.val) opts tr.task tr.now
      match par.val with
      | .error e =>
        failFinish taskId e sr2 (u.evts ++ ex.evts ++ tr.evts ++ par.evts)
          par.task par.now
      | .ok branches =>
        let sr4 := sr2 ++ [(AnalysisStep.contentAnalysis, branches.1),
          (AnalysisStep.commentAnalysis, branches.2)]
        let fin := runFinalizationStep env taskId sr4 opts par.task par.now
        let sr5 := sr4 ++ [(AnalysisStep.finalization, fin.val)]
        if ¬ fin.val.success then
          failFinish taskId
            (.externalService ("报告生成失败: " ++ (fin.val.error.getD "None"))) sr5
            (u.evts ++ ex.evts ++ tr.evts ++ par.evts ++ fin.evts) fin.task fin.now
        else
          let u2 := updateTaskStatus taskId .completed (some "分析完成") true
            fin.task fin.now
          let finalData := match fin.val.data with
            | some d => if pyTruthy d then d else .obj []
            | Option.none => .obj []
          ⟨.ok (),
            u.evts ++ ex.evts ++ tr.evts ++ par.evts ++ fin.evts ++ u2.evts ++
              [Event.taskCompleted taskId finalData],
            u2.task, u2.now⟩

/-! ## Trace projections -/

/-- The percentage of a progress event. -/
def Event.percent? : Event → Option ℕ
  | .progress _ p _ _ _ => some p
  | _ => Option.none

/-- All progress percentages of a trace, in delivery order. -/
def progressPercents (l : List Event) : List ℕ :=
  l.filterMap Event.percent?

/-- The percentage of a progress event sent directly by the orchestrator
(not by a sub-task). -/
def Event.orchPercent? : Event → Option ℕ
  | .progress _ p _ _ false => some p
  | _ => Option.none

/-- The orchestrator-sent progress percentages of a trace, in order. -/
def orchPercents (l : List Event) : List ℕ :=
  l.filterMap Event.orchPercent?

/-- The `result_data` value written by a db-write event, when that column
was touched. -/
def Event.resultWrite? : Event → Option PyVal
  | .dbWrite _ w => w.resultData
  | _ => Option.none

/-- All `result_data` writes of a trace, in order. -/
def resultDataWrites (l : List Event) : List PyVal :=
  l.filterMap Event.resultWrite?

/-- The status value written by a db-write event, when the status column
was touched. -/
def Event.statusWrite? : Event → Option TaskStatus
  | .dbWrite _ w => w.status
  | _ => Option.none

/-- The `error_message` value written by a db-write event, when touched. -/
def Event.errorMessageWrite? : Event → Option String
  | .dbWrite _ w => w.errorMessage
  | _ => Option.none

/-- The message of a `send_task_failed` event sent by the orchestrator's
`except` clause. -/
def Event.failMessage? : Event → Option String
  | .taskFailed _ (.orchestrator m _) => some m
  | _ => Option.none

/-- The steps recorded in the step-result map of an orchestrator
`send_task_failed` event. -/
def Event.failSteps? : Event → Option (List AnalysisStep)
  | .taskFailed _ (.orchestrator _ rs) => some (rs.map Prod.fst)
  | _ => Option.none

/-- Whether an event is any `send_task_failed` call. -/
def Event.isTaskFailed : Event → Bool
  | .taskFailed _ _ => true
  | _ => false

/-- The payload of a `send_task_completed` event. -/
def Event.completedPayload? : Event → Option PyVal
  | .taskCompleted _ r => some r
  | _ => Option.none

/-- The label slot of a progress event. -/
def Event.progressLabel? : Event → Option (Option String)
  | .progress _ _ _ cs _ => some cs
  | _ => Option.none

/-! ## Concrete collaborator environments used by the theorems -/

/-- A concrete video-metadata record. -/
def viOk : VideoInfo :=
  ⟨"vid123", "Test Video", "desc", "ch1", "Test Channel", 300, 1000, 100,
    "2024-01-01", "thumb", Option.none⟩

/-- A concrete comment record. -/
def commentOk : CommentRec :=
  ⟨"c1", "Great video!", "alice", some "ach1", 3, 0, "2024-01-02", false,
    Option.none⟩

/-- A concrete transcript. -/
def transcriptOk : TranscriptResult :=
  ⟨"en", 0.9, 300, 6, "this is a small test transcript", []⟩

/-- A concrete content-analysis payload (the task's `analysis_result`
dict; note it has no `"analysis"` wrapper key). -/
def contentPayloadOk : PyVal := .obj [
  ("quality_score", .num 0.8),
  ("summary", .str "fine")]

/-- A concrete non-empty comment-insights value. -/
def insightsOk : CommentInsights := { emptyInsights with
  totalComments := 1
  sentimentDistribution := [("positive", 1), ("negative", 0), ("neutral", 0)] }

/-- An environment in which every collaborator call succeeds. -/
def envAllOk : Env where
  ytKeyPresent := true
  openaiKeyPresent := true
  taskExists := true
  extractVideoId := fun _ => some "vid123"
  getVideoInfo := fun _ => .ok viOk
  downloadAudio := fun _ => .ok "audio-vid123.mp3"
  getComments := fun _ _ => .ok [commentOk]
  validateAudioFile := fun _ => true
  detectLanguage := fun _ => .ok ("en", 0.9)
  transcribeAudio := fun _ _ => .ok transcriptOk
  contentAnalyze := fun _ _ => .ok contentPayloadOk
  commentAnalyze := fun _ _ => .ok insightsOk

/-- `envAllOk` with an unresolvable video reference: the extraction step
fails at `extract_video_id`. -/
def envBadUrl : Env := { envAllOk with extractVideoId := fun _ => Option.none }

/-- `envAllOk` with a failing content-analysis collaborator and a working
comment-analysis one. -/
def envContentFail : Env := { envAllOk with
  contentAnalyze := fun _ _ => .error (.externalService "LLM unavailable") }

/-- `envAllOk` with zero comments on the video. -/
def envNoComments : Env := { envAllOk with getComments := fun _ _ => .ok [] }

/-! ## Claim theorems -/

/-- The options dict used by the concrete runs: a caller-provided language,
as `run_analysis` options admit. -/
def optsLang : PyVal := .obj [("language", .str "en")]

/-- Claim C9: the configured step weights (extraction 25, transcription 30,
content analysis 25, comment analysis 15, finalization 5) sum to exactly
100, and `_calculate_progress` never exceeds 100 for any completed-step
list, current step, and intra-step sub-percentage. -/
theorem C9_weights_sum_100_and_progress_capped :
    ([AnalysisStep.extraction, AnalysisStep.transcription,
      AnalysisStep.contentAnalysis, AnalysisStep.commentAnalysis,
      AnalysisStep.finalization].map stepWeights).sum = 100 ∧
    ∀ (completedSteps : List AnalysisStep) (currentStep : Option AnalysisStep)
      (stepProgress : ℤ),
      calculateProgress completedSteps currentStep stepProgress ≤ 100 := by
  refine ⟨by norm_num [stepWeights], ?_⟩
  intro completedSteps currentStep stepProgress
  unfold calculateProgress
  exact min_le_right _ _

/-- Claim C1, counterexample: in a run of `run_analysis` in which every
collaborator succeeds, the full sequence of percentages delivered through
`send_progress_update` for the job — the orchestrator's own ticks together
with the ticks of the transcription and comment-analysis (and content-
analysis) sub-tasks — is not non-decreasing: the transcription sub-task
emits 10 right after the orchestrator emitted 30. -/
theorem C1_counterexample_sequence_decreases :
    ¬ List.Chain' (fun a b => a ≤ b)
      (progressPercents (runAnalysis envAllOk "task-1" "url" optsLang initialTask 0).evts) := by
  have h : progressPercents (runAnalysis envAllOk "task-1" "url" optsLang initialTask 0).evts =
      [5, 10, 15, 20, 25, 30, 10, 20, 40, 80, 100, 55, 60, 85, 95, 10, 20, 40,
        80, 100, 85, 90, 100] := by rfl
  rw [h]
  simp [List.chain'_cons]

/-- Claim C2, counterexample: when extraction fails on an invalid video
reference, the job does end FAILED, but the persisted `error_message`
column is never written — the failure text (with the extraction-phase
marker) goes into the `current_step` column instead, so the claim's
"persisted errorMessage contains the extraction-phase marker" is false. -/
theorem C2_counterexample_error_message_unset :
    (runAnalysis envBadUrl "task-1" "url" optsLang initialTask 0).task.status =
      TaskStatus.failed ∧
    (runAnalysis envBadUrl "task-1" "url" optsLang initialTask 0).task.errorMessage =
      Option.none ∧
    (runAnalysis envBadUrl "task-1" "url" optsLang initialTask 0).task.currentStep =
      some "分析失败: 数据提取失败: 无效的YouTube URL: url" := by
  exact ⟨rfl, rfl, rfl⟩

/-- Claim C4, counterexample: in a fully successful run, `result_data` is
written three times (by the transcription, content-analysis and
comment-analysis sub-tasks), not exactly once; and none of the persisted
writes is the finalization report (no write carries the report's
`summary` section — the report travels only in the completion
notification). -/
theorem C4_counterexample_result_data_written_thrice :
    (resultDataWrites (runAnalysis envAllOk "task-1" "url" optsLang initialTask 0).evts).length
      = 3 ∧
    (runAnalysis envAllOk "task-1" "url" optsLang initialTask 0).task.status =
      TaskStatus.completed ∧
    ((resultDataWrites (runAnalysis envAllOk "task-1" "url" optsLang initialTask 0).evts).map
      fun v => (v.lookup "summary").isSome) = [false, false, false] ∧
    ((runAnalysis envAllOk "task-1" "url" optsLang initialTask 0).evts.filterMap
      Event.completedPayload?).map (fun rep => (rep.lookup "summary").isSome) = [true] := by
  exact ⟨rfl, rfl, rfl, rfl⟩

/-- Claim C3: with Content Analysis failing and Comment Analysis
succeeding (all other steps fine), the pipeline does not abort —
finalization runs, the job ends COMPLETED, and `content_insights` is empty
as claimed; but `audience_feedback` is also the empty dict, even though
the comment-analysis payload was produced and persisted (non-empty):
finalization reads the payload under an `"analysis"` key the comment task
never writes. -/
theorem C3_content_fail_comment_success_run :
    (runAnalysis envContentFail "task-1" "url" optsLang initialTask 0).val = .ok () ∧
    (runAnalysis envContentFail "task-1" "url" optsLang initialTask 0).task.status =
      TaskStatus.completed ∧
    ((runAnalysis envContentFail "task-1" "url" optsLang initialTask 0).evts.filterMap
      Event.completedPayload?).map (fun rep => rep.getN "content_insights") = [.obj []] ∧
    ((runAnalysis envContentFail "task-1" "url" optsLang initialTask 0).evts.filterMap
      Event.completedPayload?).map (fun rep => rep.getN "audience_feedback") = [.obj []] ∧
    pyTruthy (((runAnalysis envContentFail "task-1" "url" optsLang initialTask 0).task.resultData.getD
      (.obj [])).getN "comment_analysis") = true := by
  exact ⟨rfl, rfl, rfl, rfl, rfl⟩

/-- Helper: `_generate_recommendations` divides by zero whenever the
sentiment distribution it receives is a non-empty dict with zero-sum
counts. -/
theorem recs_zero_sum_div0 (c k vi ti : PyVal)
    (ht : pyTruthy (k.getD "sentiment_distribution" (.obj [])) = true)
    (hs : (k.getD "sentiment_distribution" (.obj [])).valuesSum = 0) :
    generateRecommendations c k vi ti = .error (.zeroDivision "division by zero") := by
  unfold generateRecommendations
  simp only [ht, hs, pyDiv, if_true, reduceIte, exBind]

/-- Helper: the report synthesis propagates that `ZeroDivisionError` when
the content side carries no overall sentiment (so the cross-analysis
alignment division is skipped) and the audience side carries a non-empty
zero-sum sentiment distribution. -/
theorem report_zero_sum_div0 (ex tr c k opts : PyVal) (now : ℕ)
    (hcs : pyTruthy (((c.getD "analysis" (.obj [])).getD "sentiment_analysis"
      (.obj [])).getN "overall_sentiment") = false)
    (ht : pyTruthy ((k.getD "analysis" (.obj [])).getD "sentiment_distribution"
      (.obj [])) = true)
    (hs : ((k.getD "analysis" (.obj [])).getD "sentiment_distribution"
      (.obj [])).valuesSum = 0) :
    generateComprehensiveReport ex tr c k opts now =
      .error (.zeroDivision "division by zero") := by
  unfold generateComprehensiveReport generateCrossAnalysisInsights
  simp only [hcs, ht, hs, Bool.false_eq_true, false_and, if_false, reduceIte,
    recs_zero_sum_div0 _ _ _ _ ht hs, exBind]

/-- Claim C6, counterexample: the report synthesis does NOT tolerate the
all-zero audience-feedback shape `_empty_insights` produces for zero
comments — fed that shape (under the `"analysis"` key finalization reads),
`_generate_recommendations` divides by `sum(sentiment_distribution.values())
= 0` and the synthesis raises `ZeroDivisionError`. -/
theorem C6_counterexample_zero_sum_division :
    generateComprehensiveReport (.obj []) (.obj []) (.obj [])
      (.obj [("analysis", commentInsightsToResult emptyInsights)]) (.obj []) 0 =
      .error (.zeroDivision "division by zero") := by
  apply report_zero_sum_div0
  · rfl
  · rfl
  · have hs0 : ((PyVal.obj [("analysis", commentInsightsToResult emptyInsights)]).getD
        "analysis" (.obj [])).getD "sentiment_distribution" (.obj []) =
        distPy [("positive", 0), ("negative", 0), ("neutral", 0)] := rfl
    rw [hs0]
    norm_num [distPy, PyVal.valuesSum, asNum]

/-- Claim C6, amended: `analyze_comments` on zero comments returns the
well-defined empty result (all-zero counts, empty lists) without failing;
the report synthesis tolerates an absent/empty audience-feedback shape
(the shape it actually receives end-to-end, since the payload is read
under a missing `"analysis"` key) without raising; and the end-to-end
zero-comments run completes.  It is only the all-zero non-empty sentiment
distribution that the synthesis does not tolerate (see the
counterexample). -/
theorem C6_amended_zero_comments_safe :
    (∀ (env : Env) (vi : PyVal), analyzeComments env [] vi = .ok emptyInsights) ∧
    emptyInsights.totalComments = 0 ∧
    emptyInsights.mainThemes = [] ∧
    emptyInsights.topComments = [] ∧
    emptyInsights.sentimentDistribution.map Prod.snd = [0, 0, 0] ∧
    (∀ (ex tr c k opts : PyVal) (now : ℕ),
      pyTruthy ((k.getD "analysis" (.obj [])).getD "sentiment_distribution"
        (.obj [])) = false →
      ∃ rep, generateComprehensiveReport ex tr c k opts now = .ok rep) ∧
    (runAnalysis envNoComments "task-1" "url" optsLang initialTask 0).val = .ok () ∧
    (runAnalysis envNoComments "task-1" "url" optsLang initialTask 0).task.status =
      TaskStatus.completed := by
  refine ⟨fun env vi => rfl, rfl, rfl, rfl, rfl, ?_, rfl, rfl⟩
  intro ex tr c k opts now h
  unfold generateComprehensiveReport generateCrossAnalysisInsights
    generateRecommendations calculateOverallScore
  simp only [h, Bool.false_eq_true, and_false, false_and, if_false, reduceIte, exBind]
  exact ⟨_, rfl⟩

/-- Witness for C6's amended theorem at concrete inputs: the zero-comment
analyzer result, and a report synthesis succeeding on the empty
audience-feedback shape. -/
theorem C6_amended_witness :
    analyzeComments envAllOk [] (.obj []) = .ok emptyInsights ∧
    ∃ rep, generateComprehensiveReport (.obj []) (.obj []) (.obj [])
      (.obj []) (.obj []) 0 = .ok rep :=
  ⟨C6_amended_zero_comments_safe.1 envAllOk (.obj []),
   C6_amended_zero_comments_safe.2.2.2.2.2.1 (.obj []) (.obj []) (.obj [])
     (.obj []) (.obj []) 0 rfl⟩

/-- Inversion of `exBind` landing on a success. -/
theorem exBind_eq_ok {α β : Type} (x : Except PyErr α) (f : α → Except PyErr β)
    (r : β) :
    exBind x f = .ok r ↔ ∃ a, x = .ok a ∧ f a = .ok r := by
  cases x <;> simp [exBind]

/-- Spec-side description of claim C5's component list: the content quality
score (default 0.5), the comment positive-sentiment ratio (omitted when no
sentiment distribution is present), and the content structure score
(default 0.5). -/
def specScoreComponents (contentAnalysis commentAnalysis : PyVal) : List ℚ :=
  let quality := asNum ((contentAnalysis.getD "quality_metrics" (.obj [])).getD
    "overall_quality" (.num 0.5))
  let dist := commentAnalysis.getD "sentiment_distribution" (.obj [])
  let structureScore := asNum ((contentAnalysis.getD "content_structure"
    (.obj [])).getD "overall_structure_score" (.num 0.5))
  [quality] ++
    (if pyTruthy dist then [asNum (dist.getD "positive" (.num 0)) / dist.valuesSum]
      else []) ++
    [structureScore]

/-- Helper: whatever `_calculate_overall_score` returns is the
rounded-to-2-decimals arithmetic mean of the spec's component list. -/
theorem overallScore_eq_components (c k : PyVal) (s : ℚ)
    (h : calculateOverallScore c k = .ok s) :
    s = pyRound 2 ((specScoreComponents c k).sum / (specScoreComponents c k).length) := by
  unfold calculateOverallScore at h
  unfold specScoreComponents
  by_cases hd : pyTruthy (k.getD "sentiment_distribution" (.obj [])) = true
  · simp only [hd, if_true, reduceIte, exBind_eq_ok] at h
    obtain ⟨a, ha, h⟩ := h
    unfold pyDiv at ha
    by_cases hz : (k.getD "sentiment_distribution" (.obj [])).valuesSum = 0
    · simp [hz] at ha
    · simp only [hz, reduceIte, Except.ok.injEq] at ha
      subst ha
      simp only [List.isEmpty_cons, Bool.false_eq_true, reduceIte,
        Except.ok.injEq] at h
      subst h
      simp [hd, List.sum_cons]
  · simp only [Bool.not_eq_true] at hd
    simp only [hd, Bool.false_eq_true, reduceIte, List.isEmpty_cons,
      Except.ok.injEq] at h
    subst h
    simp [hd, List.sum_cons]

/-- Helper: the report synthesis succeeds whenever the audience sentiment
distribution is absent/empty or has a non-zero count sum, provided the
content side carries no overall sentiment (so the alignment division is
skipped). -/
theorem report_ok_of_sentiment_safe (ex tr c k opts : PyVal) (now : ℕ)
    (hcs : pyTruthy (((c.getD "analysis" (.obj [])).getD "sentiment_analysis"
      (.obj [])).getN "overall_sentiment") = false)
    (hsafe : pyTruthy ((k.getD "analysis" (.obj [])).getD "sentiment_distribution"
        (.obj [])) = false ∨
      ((k.getD "analysis" (.obj [])).getD "sentiment_distribution"
        (.obj [])).valuesSum ≠ 0) :
    ∃ rep, generateComprehensiveReport ex tr c k opts now = .ok rep := by
  unfold generateComprehensiveReport generateCrossAnalysisInsights
    generateRecommendations calculateOverallScore
  rcases hsafe with h | h
  · simp only [h, hcs, Bool.false_eq_true, and_false, false_and, if_false,
      reduceIte, exBind]
    exact ⟨_, rfl⟩
  · by_cases ht : pyTruthy ((k.getD "analysis" (.obj [])).getD
        "sentiment_distribution" (.obj [])) = true
    · simp only [ht, hcs, h, Bool.false_eq_true, false_and, if_false, if_true,
        reduceIte, exBind, pyDiv]
      exact ⟨_, rfl⟩
    · simp only [Bool.not_eq_true] at ht
      simp only [ht, hcs, Bool.false_eq_true, and_false, false_and, if_false,
        reduceIte, exBind]
      exact ⟨_, rfl⟩

/-- Claim C5: in a successfully finalized report, `summary.overall_score`
is `_calculate_overall_score`'s value, and that value is the
rounded-to-2-decimals arithmetic mean of the three components — content
quality (default 0.5), positive-sentiment ratio (omitted when no sentiment
distribution is present), content structure score (default 0.5). -/
theorem C5_report_overall_score (ex tr c k opts : PyVal) (now : ℕ) (rep : PyVal)
    (h : generateComprehensiveReport ex tr c k opts now = .ok rep) :
    ∃ s, calculateOverallScore (c.getD "analysis" (.obj []))
        (k.getD "analysis" (.obj [])) = .ok s ∧
      (rep.getN "summary").getN "overall_score" = .num s ∧
      s = pyRound 2 ((specScoreComponents (c.getD "analysis" (.obj []))
          (k.getD "analysis" (.obj []))).sum /
        (specScoreComponents (c.getD "analysis" (.obj []))
          (k.getD "analysis" (.obj []))).length) := by
  unfold generateComprehensiveReport at h
  simp only [exBind_eq_ok, Except.ok.injEq] at h
  obtain ⟨cross, hc, recs, hr, s, hsc, hbody⟩ := h
  refine ⟨s, hsc, ?_, overallScore_eq_components _ _ _ hsc⟩
  subst hbody
  rfl

/-- A concrete content-analysis slice for the C5 witness. -/
def c5content : PyVal :=
  .obj [("analysis", .obj [
    ("quality_metrics", .obj [("overall_quality", .num 0.8)]),
    ("content_structure", .obj [("overall_structure_score", .num 0.7)])])]

/-- A concrete comment-analysis slice for the C5 witness. -/
def c5comment : PyVal :=
  .obj [("analysis", .obj [("sentiment_distribution", .obj [("positive", .num 70),
    ("negative", .num 20), ("neutral", .num 10)])])]

/-- Witness for C5: quality 0.8, positive ratio 0.7, structure 0.7 give
`overall_score = round(2.2/3, 2) = 0.73` in the finalized report. -/
theorem C5_witness :
    ∃ rep, generateComprehensiveReport (.obj []) (.obj []) c5content c5comment
      (.obj []) 0 = .ok rep ∧
      (rep.getN "summary").getN "overall_score" = .num 0.73 := by
  obtain ⟨rep, hrep⟩ := report_ok_of_sentiment_safe (.obj []) (.obj []) c5content
    c5comment (.obj []) 0 rfl
    (Or.inr (by
      have e0 : (c5comment.getD "analysis" (.obj [])).getD "sentiment_distribution"
          (.obj []) = .obj [("positive", .num 70), ("negative", .num 20),
          ("neutral", .num 10)] := rfl
      rw [e0]
      norm_num [PyVal.valuesSum, asNum]))
  obtain ⟨s, hs, hslot, hcomp⟩ := C5_report_overall_score _ _ _ _ _ _ _ hrep
  refine ⟨rep, hrep, ?_⟩
  rw [hslot, hcomp]
  have e1 : specScoreComponents (c5content.getD "analysis" (.obj []))
      (c5comment.getD "analysis" (.obj [])) =
      [0.8, 70 / (70 + (20 + (10 + 0)) : ℚ), 0.7] := rfl
  rw [e1]
  norm_num [pyRound, roundHalfEven]

/-- Claim C7: in a successfully finalized report,
`transcript_analysis.speaking_rate_wpm` is
`round(word_count / (duration / 60), 1)` when the transcript duration is
truthy and 0 when it is falsy, where `word_count` counts the words of the
transcript's full text. -/
theorem C7_speaking_rate (ex tr c k opts : PyVal) (now : ℕ) (rep : PyVal)
    (h : generateComprehensiveReport ex tr c k opts now = .ok rep) :
    (rep.getN "transcript_analysis").getN "speaking_rate_wpm" =
      (if pyTruthy (tr.getN "duration") then
        .num (pyRound 1 (((pyWords (asStr (tr.getD "full_text" (.str "")))).length : ℚ) /
          (asNum (tr.getN "duration") / 60)))
      else .num 0) := by
  unfold generateComprehensiveReport at h
  simp only [exBind_eq_ok, Except.ok.injEq] at h
  obtain ⟨cross, hc, recs, hr, s, hsc, hbody⟩ := h
  subst hbody
  rfl

/-- A 180-word transcript of 60 seconds. -/
def tr180 : PyVal :=
  .obj [("full_text", .str (String.intercalate " " (List.replicate 180 "w"))),
    ("duration", .num 60), ("language", .str "en")]

/-- A transcript with zero duration. -/
def tr0 : PyVal :=
  .obj [("full_text", .str "three words here"), ("duration", .num 0)]

/-- Witness for C7: 180 words over 60 seconds give 180 wpm; duration 0
gives 0 with no division error. -/
theorem C7_witness :
    (∃ rep, generateComprehensiveReport (.obj []) tr180 (.obj []) (.obj [])
      (.obj []) 0 = .ok rep ∧
      (rep.getN "transcript_analysis").getN "speaking_rate_wpm" = .num 180) ∧
    (∃ rep, generateComprehensiveReport (.obj []) tr0 (.obj []) (.obj [])
      (.obj []) 0 = .ok rep ∧
      (rep.getN "transcript_analysis").getN "speaking_rate_wpm" = .num 0) := by
  constructor
  · obtain ⟨rep, hrep⟩ := report_ok_of_sentiment_safe (.obj []) tr180 (.obj [])
      (.obj []) (.obj []) 0 rfl (Or.inl rfl)
    refine ⟨rep, hrep, ?_⟩
    rw [C7_speaking_rate _ _ _ _ _ _ _ hrep]
    have e1 : pyTruthy (tr180.getN "duration") = true := rfl
    have e2 : ((pyWords (asStr (tr180.getD "full_text" (.str "")))).length : ℚ) = 180 := by
      norm_num [show (pyWords (asStr (tr180.getD "full_text" (.str "")))).length = 180
        from rfl]
    rw [e1, if_pos rfl, e2]
    have e3 : asNum (tr180.getN "duration") = 60 := rfl
    rw [e3]
    norm_num [pyRound, roundHalfEven]
  · obtain ⟨rep, hrep⟩ := report_ok_of_sentiment_safe (.obj []) tr0 (.obj [])
      (.obj []) (.obj []) 0 rfl (Or.inl rfl)
    refine ⟨rep, hrep, ?_⟩
    rw [C7_speaking_rate _ _ _ _ _ _ _ hrep]
    have e1 : pyTruthy (tr0.getN "duration") = false := rfl
    rw [e1]
    simp

theorem C8_topic_overlap_jaccard :
    (∀ ct ck : List String, ct ≠ [] → ck ≠ [] →
      calculateTopicOverlap ct ck =
        (((ct.map pyLower).toFinset ∩ (ck.map pyLower).toFinset).card : ℚ) /
          ((ct.map pyLower).toFinset ∪ (ck.map pyLower).toFinset).card) ∧
    (∀ ck, calculateTopicOverlap [] ck = 0) ∧
    (∀ ct, calculateTopicOverlap ct [] = 0) ∧
    calculateTopicOverlap ["AI", "Cloud"] ["ai", "data"] = 1/3 ∧
    (∀ c k vi ti r, generateCrossAnalysisInsights c k vi ti = .ok r →
      pyTruthy ((c.getD "topic_analysis" (.obj [])).getD "main_topics" (.list [])) = true →
      pyTruthy (k.getD "key_themes" (.list [])) = true →
      (r.getN "topic_resonance").getN "topic_overlap_score" =
        .num (calculateTopicOverlap
          (asStrList ((c.getD "topic_analysis" (.obj [])).getD "main_topics" (.list [])))
          (asStrList (k.getD "key_themes" (.list [])))) ∧
      (r.getN "topic_resonance").getN "resonance_level" =
        .str (if calculateTopicOverlap
            (asStrList ((c.getD "topic_analysis" (.obj [])).getD "main_topics" (.list [])))
            (asStrList (k.getD "key_themes" (.list []))) > 0.6 then "high"
          else if calculateTopicOverlap
            (asStrList ((c.getD "topic_analysis" (.obj [])).getD "main_topics" (.list [])))
            (asStrList (k.getD "key_themes" (.list []))) > 0.3 then "medium"
          else "low")) := by
  have hjac : ∀ ct ck : List String, ct ≠ [] → ck ≠ [] →
      calculateTopicOverlap ct ck =
        (((ct.map pyLower).toFinset ∩ (ck.map pyLower).toFinset).card : ℚ) /
          ((ct.map pyLower).toFinset ∪ (ck.map pyLower).toFinset).card := by
    intro ct ck hct hck
    unfold calculateTopicOverlap
    have h1 : ¬ (ct.isEmpty ∨ ck.isEmpty) := by
      simp [List.isEmpty_iff, hct, hck]
    rw [if_neg h1]
    have h2 : 0 < ((ct.map pyLower).toFinset ∪ (ck.map pyLower).toFinset).card := by
      apply Finset.card_pos.mpr
      refine Finset.Nonempty.mono Finset.subset_union_left ?_
      exact (List.toFinset_nonempty_iff _).mpr (by simp [hct])
    rw [if_pos h2]
  refine ⟨hjac, fun ck => by simp [calculateTopicOverlap],
    fun ct => by simp [calculateTopicOverlap], ?_, ?_⟩
  · rw [hjac _ _ (by simp) (by simp)]
    have h1 : (["AI", "Cloud"].map pyLower) = ["ai", "cloud"] := rfl
    have h2 : (["ai", "data"].map pyLower) = ["ai", "data"] := rfl
    rw [h1, h2]
    have h3 : (["ai", "cloud"].toFinset ∩ ["ai", "data"].toFinset).card = 1 := by decide
    have h4 : (["ai", "cloud"].toFinset ∪ ["ai", "data"].toFinset).card = 3 := by decide
    rw [h3, h4]
    norm_num
  · intro c k vi ti r hr h1 h2
    unfold generateCrossAnalysisInsights at hr
    simp only [exBind_eq_ok, Except.ok.injEq] at hr
    obtain ⟨al, hal, hr⟩ := hr
    subst hr
    simp only [h1, h2, and_self, if_true, reduceIte]
    exact ⟨rfl, rfl⟩

/-- A concrete content-analysis slice for the C8 witness. -/
def c8content : PyVal :=
  .obj [("topic_analysis", .obj [("main_topics", .list [.str "AI", .str "Cloud"])])]

/-- A concrete comment-analysis slice for the C8 witness. -/
def c8comment : PyVal :=
  .obj [("key_themes", .list [.str "ai", .str "data"])]

/-- Witness for C8: the concrete cross-analysis insights carry overlap 1/3
bucketed "medium". -/
theorem C8_witness :
    (∃ r, generateCrossAnalysisInsights c8content c8comment (.obj []) (.obj []) = .ok r ∧
      (r.getN "topic_resonance").getN "topic_overlap_score" = .num (1/3) ∧
      (r.getN "topic_resonance").getN "resonance_level" = .str "medium") ∧
    calculateTopicOverlap ["AI", "Cloud"] ["ai", "data"] = 1/3 := by
  obtain ⟨r, hr⟩ : ∃ r, generateCrossAnalysisInsights c8content c8comment
      (.obj []) (.obj []) = .ok r := ⟨_, rfl⟩
  have hov := C8_topic_overlap_jaccard.2.2.2.1
  have hmain := C8_topic_overlap_jaccard.2.2.2.2 c8content c8comment (.obj [])
    (.obj []) r hr rfl rfl
  have e1 : asStrList ((c8content.getD "topic_analysis" (.obj [])).getD
      "main_topics" (.list [])) = ["AI", "Cloud"] := rfl
  have e2 : asStrList (c8comment.getD "key_themes" (.list [])) = ["ai", "data"] := rfl
  rw [e1, e2, hov] at hmain
  refine ⟨⟨r, hr, hmain.1, ?_⟩, hov⟩
  rw [hmain.2]
  norm_num

/-- The per-runner totality contract of claim C10. -/
def runnerContract (r : StepResult) (s : AnalysisStep) : Prop :=
  r.step = s ∧ r.duration.isSome = true ∧
  (r.success = false → r.data = Option.none ∧ ∃ m, r.error = some m) ∧
  (r.success = true → ∃ d, r.data = some d)

/-- Claim C10: every per-step runner is total with respect to collaborator
failures — it always returns a `StepResult` naming its own step with a
measured duration; on failure the result has `success = false`, no data and
the exception's message as `error` (shown literally for the four runners
that wrap a single failable body). -/
theorem C10_runners_total_on_failure :
    ∀ (env : Env) (taskId url : String) (exD trD opts : PyVal)
      (srs : List (AnalysisStep × StepResult)) (t : TaskRecord) (now : ℕ),
      runnerContract (runExtractionStep env taskId url opts t now).val .extraction ∧
      runnerContract (runTranscriptionStep env taskId exD opts t now).val .transcription ∧
      runnerContract (runContentAnalysis env taskId exD trD opts t now).val .contentAnalysis ∧
      runnerContract (runCommentAnalysis env taskId exD opts t now).val .commentAnalysis ∧
      runnerContract (runFinalizationStep env taskId srs opts t now).val .finalization ∧
      (∀ e, pyTruthy exD = true → pyTruthy (exD.getN "audio_file_path") = true →
        (transcribeAudioTask env taskId (asStr (exD.getN "audio_file_path"))
          (opts.getN "language") t now).val = .error e →
        (runTranscriptionStep env taskId exD opts t now).val =
          failStep .transcription e.msg
            ((transcribeAudioTask env taskId (asStr (exD.getN "audio_file_path"))
              (opts.getN "language") t now).now - now)) ∧
      (∀ e, pyTruthy exD = true → pyTruthy trD = true →
        pyTruthy (exD.getN "video_info") = true →
        (analyzeContentTask env taskId trD (exD.getN "video_info") t now).val = .error e →
        (runContentAnalysis env taskId exD trD opts t now).val =
          failStep .contentAnalysis e.msg
            ((analyzeContentTask env taskId trD (exD.getN "video_info") t now).now - now)) ∧
      (∀ e, pyTruthy exD = true → pyTruthy (exD.getN "video_id") = true →
        (analyzeCommentsTask env taskId (asStr (exD.getN "video_id"))
          (exD.getN "comments") t now).val = .error e →
        (runCommentAnalysis env taskId exD opts t now).val =
          failStep .commentAnalysis e.msg
            ((analyzeCommentsTask env taskId (asStr (exD.getN "video_id"))
              (exD.getN "comments") t now).now - now)) ∧
      (∀ e, generateComprehensiveReport (stepDataOrEmpty srs .extraction)
          (stepDataOrEmpty srs .transcription) (stepDataOrEmpty srs .contentAnalysis)
          (stepDataOrEmpty srs .commentAnalysis) opts now = .error e →
        (runFinalizationStep env taskId srs opts t now).val =
          failStep .finalization e.msg 0) := by
  intro env taskId url exD trD opts srs t now
  refine ⟨?_, ?_, ?_, ?_, ?_, ?_, ?_, ?_, ?_⟩
  · unfold runExtractionStep
    dsimp only
    repeat' split
    all_goals simp [runnerContract, failStep, okStep]
  · unfold runTranscriptionStep
    dsimp only
    repeat' split
    all_goals simp [runnerContract, failStep, okStep]
  · unfold runContentAnalysis
    dsimp only
    repeat' split
    all_goals simp [runnerContract, failStep, okStep]
  · unfold runCommentAnalysis
    dsimp only
    repeat' split
    all_goals simp [runnerContract, failStep, okStep]
  · unfold runFinalizationStep
    dsimp only
    repeat' split
    all_goals simp [runnerContract, failStep, okStep]
  · intro e h1 h2 hsub
    unfold runTranscriptionStep
    simp only [h1, h2, hsub, not_true_eq_false, Bool.false_eq_true, if_false, reduceIte]
  · intro e h1 h2 h3 hsub
    unfold runContentAnalysis
    simp only [h1, h2, h3, hsub, not_true_eq_false, Bool.false_eq_true, false_or,
      if_false, reduceIte]
  · intro e h1 h2 hsub
    unfold runCommentAnalysis
    simp only [h1, h2, hsub, not_true_eq_false, Bool.false_eq_true, if_false, reduceIte]
  · intro e hrep
    unfold runFinalizationStep
    simp only [hrep, Nat.sub_self]

/-- `envAllOk` with an invalid audio file, failing the transcription
sub-task's validation. -/
def envBadAudio : Env := { envAllOk with validateAudioFile := fun _ => false }

/-- A minimal extraction payload for the C10 witness. -/
def exDConcrete : PyVal := .obj [("audio_file_path", .str "audio.mp3")]

/-- Witness for C10: the extraction runner's failed result at a bad URL,
and the transcription runner's exact failed result when the audio file is
invalid. -/
theorem C10_witness :
    (runExtractionStep envBadUrl "t1" "u" (.obj []) initialTask 0).val.step =
      AnalysisStep.extraction ∧
    (∃ m, (runExtractionStep envBadUrl "t1" "u" (.obj []) initialTask 0).val.error =
      some m) ∧
    (runTranscriptionStep envBadAudio "t1" exDConcrete (.obj []) initialTask 0).val =
      failStep .transcription "音频文件无效: audio.mp3" 0 := by
  have h := C10_runners_total_on_failure envBadUrl "t1" "u" exDConcrete (.obj [])
    (.obj []) [] initialTask 0
  have h2 := C10_runners_total_on_failure envBadAudio "t1" "u" exDConcrete (.obj [])
    (.obj []) [] initialTask 0
  refine ⟨h.1.1, ?_, ?_⟩
  · exact ((h.1.2.2.1 rfl).2)
  · have hp := h2.2.2.2.2.2.1 (.validation "音频文件无效: audio.mp3") rfl rfl rfl
    exact hp

/-- The PROCESSING write issued at the start of `run_analysis`. -/
def procWrite : DbWrite := { DbWrite.empty with
  status := some TaskStatus.processing
  currentStep := some (some "开始分析") }

/-- Helper: when the extraction step fails, the whole run reduces to the
PROCESSING write, the extraction events, and the `except` clause. -/
theorem runAnalysis_extraction_fail (env : Env) (taskId url : String)
    (opts : PyVal) (t : TaskRecord) (n : ℕ)
    (h : (runExtractionStep env taskId url opts (dbApply procWrite t) n).val.success = false) :
    runAnalysis env taskId url opts t n =
      failFinish taskId
        (.externalService ("数据提取失败: " ++
          ((runExtractionStep env taskId url opts (dbApply procWrite t) n).val.error.getD "None")))
        [(AnalysisStep.extraction, (runExtractionStep env taskId url opts (dbApply procWrite t) n).val)]
        ([Event.dbWrite taskId procWrite] ++
          (runExtractionStep env taskId url opts (dbApply procWrite t) n).evts)
        (runExtractionStep env taskId url opts (dbApply procWrite t) n).task
        (runExtractionStep env taskId url opts (dbApply procWrite t) n).now := by
  have hu : updateTaskStatus taskId .processing (some "开始分析") false t n =
      ⟨(), [Event.dbWrite taskId procWrite], dbApply procWrite t, n⟩ := rfl
  unfold runAnalysis
  rw [hu]
  dsimp only
  simp only [h, Bool.false_eq_true, not_false_eq_true, if_true, reduceIte]

/-- Helper: the extraction runner only ever emits orchestrator progress
ticks labelled "extraction", leaves the task row untouched, and carries an
error message whenever it failed. -/
theorem extraction_evts_shape (env : Env) (taskId url : String) (opts : PyVal)
    (t : TaskRecord) (n : ℕ) :
    (∀ ev ∈ (runExtractionStep env taskId url opts t n).evts,
      ∃ p m, ev = Event.progress taskId p m (some "extraction") false) ∧
    (runExtractionStep env taskId url opts t n).task = t ∧
    ((runExtractionStep env taskId url opts t n).val.success = false →
      ∃ m, (runExtractionStep env taskId url opts t n).val.error = some m) := by
  unfold runExtractionStep
  dsimp only
  repeat' split
  all_goals simp [failStep, okStep]

/-- Claim C2, amended: when the Extraction step fails, the run ends FAILED
with the failure text (extraction marker included) persisted into the
`current_step` column while `error_message` is left untouched;
`send_task_failed` fires exactly once, carrying the message and the
step-result map holding only the extraction result; and no transcription /
content / comment / finalization activity happens — every progress tick is
an extraction tick, nothing is written to `result_data`, and no completion
notification is sent. -/
theorem C2_amended_extraction_failure (env : Env) (taskId url : String)
    (opts : PyVal) (t : TaskRecord) (n : ℕ)
    (h : (runExtractionStep env taskId url opts (dbApply procWrite t) n).val.success = false) :
    (runAnalysis env taskId url opts t n).task.status = TaskStatus.failed ∧
    (∃ m, (runAnalysis env taskId url opts t n).task.currentStep =
      some ("分析失败: " ++ ("数据提取失败: " ++ m))) ∧
    (runAnalysis env taskId url opts t n).task.errorMessage = t.errorMessage ∧
    ((runAnalysis env taskId url opts t n).evts.filter Event.isTaskFailed).length = 1 ∧
    (∃ m, (runAnalysis env taskId url opts t n).evts.filterMap Event.failMessage? =
      ["数据提取失败: " ++ m]) ∧
    (runAnalysis env taskId url opts t n).evts.filterMap Event.failSteps? =
      [[AnalysisStep.extraction]] ∧
    (∀ l ∈ (runAnalysis env taskId url opts t n).evts.filterMap Event.progressLabel?,
      l = some "extraction") ∧
    resultDataWrites (runAnalysis env taskId url opts t n).evts = [] ∧
    (runAnalysis env taskId url opts t n).evts.filterMap Event.completedPayload? = [] := by
  obtain ⟨hshape, htask, herr⟩ := extraction_evts_shape env taskId url opts
    (dbApply procWrite t) n
  obtain ⟨m0, hm0⟩ := herr h
  rw [runAnalysis_extraction_fail env taskId url opts t n h]
  unfold failFinish
  dsimp only
  have hfail : List.filter Event.isTaskFailed
      (runExtractionStep env taskId url opts (dbApply procWrite t) n).evts = [] :=
    List.filter_eq_nil_iff.mpr (by
      intro ev hev
      obtain ⟨p, m, rfl⟩ := hshape ev hev
      simp [Event.isTaskFailed])
  have hmsg : List.filterMap Event.failMessage?
      (runExtractionStep env taskId url opts (dbApply procWrite t) n).evts = [] :=
    List.filterMap_eq_nil_iff.mpr (by
      intro ev hev
      obtain ⟨p, m, rfl⟩ := hshape ev hev
      simp [Event.failMessage?])
  have hsteps : List.filterMap Event.failSteps?
      (runExtractionStep env taskId url opts (dbApply procWrite t) n).evts = [] :=
    List.filterMap_eq_nil_iff.mpr (by
      intro ev hev
      obtain ⟨p, m, rfl⟩ := hshape ev hev
      simp [Event.failSteps?])
  have hres : List.filterMap Event.resultWrite?
      (runExtractionStep env taskId url opts (dbApply procWrite t) n).evts = [] :=
    List.filterMap_eq_nil_iff.mpr (by
      intro ev hev
      obtain ⟨p, m, rfl⟩ := hshape ev hev
      simp [Event.resultWrite?])
  have hcomp : List.filterMap Event.completedPayload?
      (runExtractionStep env taskId url opts (dbApply procWrite t) n).evts = [] :=
    List.filterMap_eq_nil_iff.mpr (by
      intro ev hev
      obtain ⟨p, m, rfl⟩ := hshape ev hev
      simp [Event.completedPayload?])
  refine ⟨rfl, ⟨(runExtractionStep env taskId url opts (dbApply procWrite t)
    n).val.error.getD "None", rfl⟩, ?_, ?_,
    ⟨(runExtractionStep env taskId url opts (dbApply procWrite t) n).val.error.getD
      "None", ?_⟩, ?_, ?_, ?_, ?_⟩
  · rw [htask]
    rfl
  · simp only [List.filter_append, List.filter_cons, List.filter_nil, hfail,
      Event.isTaskFailed, List.append_nil, List.nil_append, List.length_append,
      List.length_cons, List.length_nil, cond_true, cond_false]
    try simp [PyErr.msg, procWrite, DbWrite.empty]
  · simp only [List.filterMap_append, List.filterMap_cons, List.filterMap_nil,
      hmsg, Event.failMessage?, List.append_nil, List.nil_append]
    try simp [PyErr.msg, procWrite, DbWrite.empty]
  · simp only [List.filterMap_append, List.filterMap_cons, List.filterMap_nil,
      hsteps, Event.failSteps?, List.append_nil, List.nil_append, List.map_cons,
      List.map_nil]
    try simp [PyErr.msg, procWrite, DbWrite.empty]
  · intro l hl
    simp only [List.filterMap_append, List.filterMap_cons, Event.progressLabel?,
      List.filterMap_nil, List.mem_append, List.mem_cons] at hl
    rcases hl with hl | hl
    · rcases hl with hl | hl
      · simp at hl
      · obtain ⟨ev, hev, hfl⟩ := List.mem_filterMap.mp hl
        obtain ⟨p, m, rfl⟩ := hshape ev hev
        simp [Event.progressLabel?] at hfl
        exact hfl.symm
    · simp at hl
  · simp only [resultDataWrites, List.filterMap_append, List.filterMap_cons,
      List.filterMap_nil, hres, Event.resultWrite?, List.append_nil, List.nil_append]
    try simp [PyErr.msg, procWrite, DbWrite.empty]
  · simp only [List.filterMap_append, List.filterMap_cons, List.filterMap_nil,
      hcomp, Event.completedPayload?, List.append_nil, List.nil_append]
    try simp [PyErr.msg, procWrite, DbWrite.empty]

/-- Witness for C2's amended theorem at the invalid-URL environment. -/
theorem C2_witness :
    (runAnalysis envBadUrl "task-1" "url" optsLang initialTask 0).task.status =
      TaskStatus.failed ∧
    (runAnalysis envBadUrl "task-1" "url" optsLang initialTask 0).task.errorMessage =
      initialTask.errorMessage ∧
    ((runAnalysis envBadUrl "task-1" "url" optsLang initialTask 0).evts.filter
      Event.isTaskFailed).length = 1 := by
  have h := C2_amended_extraction_failure envBadUrl "task-1" "url" optsLang
    initialTask 0 rfl
  exact ⟨h.1, h.2.2.1, h.2.2.2.1⟩

/-- `orchPercents` distributes over trace concatenation. -/
theorem orchPercents_append (l1 l2 : List Event) :
    orchPercents (l1 ++ l2) = orchPercents l1 ++ orchPercents l2 :=
  List.filterMap_append l1 l2 Event.orchPercent?

/-- `progressPercents` distributes over trace concatenation. -/
theorem progressPercents_append (l1 l2 : List Event) :
    progressPercents (l1 ++ l2) = progressPercents l1 ++ progressPercents l2 :=
  List.filterMap_append l1 l2 Event.percent?

/-- Helper: the tail of the transcription sub-task only appends sub-task
ticks bounded by 100. -/
theorem transcribeRest_ticks (env : Env) (taskId path : String) (detected : PyVal)
    (t : TaskRecord) (n : ℕ) (acc : List Event) :
    ∃ l, (transcribeRest env taskId path detected t n acc).evts = acc ++ l ∧
      orchPercents l = [] ∧ ∀ p ∈ progressPercents l, p ≤ 100 := by
  unfold transcribeRest
  dsimp only
  repeat' split
  all_goals refine ⟨_, rfl, rfl, ?_⟩
  all_goals simp [progressPercents, Event.percent?]

/-- Helper: the transcription sub-task body emits no orchestrator ticks and
all its percentages are at most 100. -/
theorem transcribeBody_ticks (env : Env) (taskId path : String) (lang : PyVal)
    (t : TaskRecord) (n : ℕ) :
    orchPercents (transcribeBody env taskId path lang t n).evts = [] ∧
    ∀ p ∈ progressPercents (transcribeBody env taskId path lang t n).evts, p ≤ 100 := by
  unfold transcribeBody
  dsimp only
  repeat' split
  all_goals
    first
    | (constructor
       · rfl
       · simp [progressPercents, Event.percent?])
    | (obtain ⟨l, hl, ho, hb⟩ := transcribeRest_ticks env taskId path _ t _ _
       rw [hl]
       constructor
       · rw [orchPercents_append, ho]
         rfl
       · intro p hp
         rw [progressPercents_append] at hp
         rcases List.mem_append.mp hp with hp | hp
         · simp [progressPercents, Event.percent?] at hp
           rcases hp with rfl | rfl <;> omega
         · exact hb p hp)

/-- Helper: `transcribe_audio_task` emits no orchestrator ticks and all its
percentages are at most 100. -/
theorem transcribeTask_ticks (env : Env) (taskId path : String) (lang : PyVal)
    (t : TaskRecord) (n : ℕ) :
    orchPercents (transcribeAudioTask env taskId path lang t n).evts = [] ∧
    ∀ p ∈ progressPercents (transcribeAudioTask env taskId path lang t n).evts,
      p ≤ 100 := by
  obtain ⟨ho, hb⟩ := transcribeBody_ticks env taskId path lang t n
  unfold transcribeAudioTask
  dsimp only
  split
  · exact ⟨ho, hb⟩
  · constructor
    · rw [orchPercents_append, ho]
      rfl
    · intro p hp
      rw [progressPercents_append] at hp
      rcases List.mem_append.mp hp with hp | hp
      · exact hb p hp
      · simp [progressPercents, Event.percent?] at hp

/-- Helper: the content-analysis task body emits no orchestrator ticks and
its percentages (85, 95) are at most 100. -/
theorem contentBody_ticks (env : Env) (taskId : String) (trD vi : PyVal)
    (t : TaskRecord) (n : ℕ) :
    orchPercents (contentBody env taskId trD vi t n).evts = [] ∧
    ∀ p ∈ progressPercents (contentBody env taskId trD vi t n).evts, p ≤ 100 := by
  unfold contentBody
  dsimp only
  repeat' split
  all_goals exact ⟨rfl, by simp [progressPercents, Event.percent?]⟩

/-- Helper: `analyze_content_task` emits no orchestrator ticks and all its
percentages are at most 100. -/
theorem contentTask_ticks (env : Env) (taskId : String) (trD vi : PyVal)
    (t : TaskRecord) (n : ℕ) :
    orchPercents (analyzeContentTask env taskId trD vi t n).evts = [] ∧
    ∀ p ∈ progressPercents (analyzeContentTask env taskId trD vi t n).evts,
      p ≤ 100 := by
  obtain ⟨ho, hb⟩ := contentBody_ticks env taskId trD vi t n
  unfold analyzeContentTask
  dsimp only
  split
  · exact ⟨ho, hb⟩
  · constructor
    · rw [orchPercents_append, ho]
      rfl
    · intro p hp
      rw [progressPercents_append] at hp
      rcases List.mem_append.mp hp with hp | hp
      · exact hb p hp
      · simp [progressPercents, Event.percent?] at hp

/-- Helper: the tail of the comment-analysis sub-task only appends sub-task
ticks bounded by 100. -/
theorem commentRest_ticks (env : Env) (taskId : String) (cs : List PyVal)
    (vi : PyVal) (t : TaskRecord) (n : ℕ) (acc : List Event) :
    ∃ l, (commentRest env taskId cs vi t n acc).evts = acc ++ l ∧
      orchPercents l = [] ∧ ∀ p ∈ progressPercents l, p ≤ 100 := by
  unfold commentRest
  dsimp only
  repeat' split
  all_goals refine ⟨_, rfl, rfl, ?_⟩
  all_goals simp [progressPercents, Event.percent?]

/-- Helper: the comment-analysis task body emits no orchestrator ticks and
all its percentages are at most 100. -/
theorem commentBody_ticks (env : Env) (taskId vid : String) (cd : PyVal)
    (t : TaskRecord) (n : ℕ) :
    orchPercents (commentBody env taskId vid cd t n).evts = [] ∧
    ∀ p ∈ progressPercents (commentBody env taskId vid cd t n).evts, p ≤ 100 := by
  unfold commentBody
  dsimp only
  repeat' split
  all_goals
    first
    | (constructor
       · rfl
       · simp [progressPercents, Event.percent?])
    | (obtain ⟨l, hl, ho, hb⟩ := commentRest_ticks env taskId _ _ t _ _
       rw [hl]
       constructor
       · rw [orchPercents_append, ho]
         rfl
       · intro p hp
         rw [progressPercents_append] at hp
         rcases List.mem_append.mp hp with hp | hp
         · simp [progressPercents, Event.percent?] at hp
           rcases hp with rfl | rfl | rfl <;> omega
         · exact hb p hp)

/-- Helper: `analyze_comments_task` emits no orchestrator ticks and all its
percentages (including the failure tick 0) are at most 100. -/
theorem commentTask_ticks (env : Env) (taskId vid : String) (cd : PyVal)
    (t : TaskRecord) (n : ℕ) :
    orchPercents (analyzeCommentsTask env taskId vid cd t n).evts = [] ∧
    ∀ p ∈ progressPercents (analyzeCommentsTask env taskId vid cd t n).evts,
      p ≤ 100 := by
  obtain ⟨ho, hb⟩ := commentBody_ticks env taskId vid cd t n
  unfold analyzeCommentsTask
  dsimp only
  repeat' split
  all_goals first
  | exact ⟨rfl, by simp [progressPercents, Event.percent?]⟩
  | exact ⟨ho, hb⟩
  | (constructor
     · rw [orchPercents_append, ho]
       rfl
     · intro p hp
       rw [progressPercents_append] at hp
       rcases List.mem_append.mp hp with hp | hp
       · exact hb p hp
       · simp [progressPercents, Event.percent?] at hp
         omega)

/-- Helper: the extraction runner's orchestrator ticks follow the schedule
5/10/15/20/25 (all of it on success), bounded by 100. -/
theorem extraction_orch (env : Env) (taskId url : String) (opts : PyVal)
    (t : TaskRecord) (n : ℕ) :
    orchPercents (runExtractionStep env taskId url opts t n).evts <+: [5, 10, 15, 20, 25] ∧
    ((runExtractionStep env taskId url opts t n).val.success = true →
      orchPercents (runExtractionStep env taskId url opts t n).evts = [5, 10, 15, 20, 25]) ∧
    ∀ p ∈ progressPercents (runExtractionStep env taskId url opts t n).evts, p ≤ 100 := by
  unfold runExtractionStep
  dsimp only
  repeat' split
  all_goals refine ⟨⟨_, rfl⟩, ?_, by simp [progressPercents, Event.percent?]⟩
  all_goals intro hs
  all_goals first
  | rfl
  | simp [failStep, okStep] at hs

/-- Helper: the transcription runner's orchestrator ticks follow the
schedule 30/55 (all of it on success), bounded by 100. -/
theorem transcription_orch (env : Env) (taskId : String) (exD opts : PyVal)
    (t : TaskRecord) (n : ℕ) :
    orchPercents (runTranscriptionStep env taskId exD opts t n).evts <+: [30, 55] ∧
    ((runTranscriptionStep env taskId exD opts t n).val.success = true →
      orchPercents (runTranscriptionStep env taskId exD opts t n).evts = [30, 55]) ∧
    ∀ p ∈ progressPercents (runTranscriptionStep env taskId exD opts t n).evts,
      p ≤ 100 := by
  obtain ⟨ho, hb⟩ := transcribeTask_ticks env taskId
    (asStr (exD.getN "audio_file_path")) (opts.getN "language") t n
  unfold runTranscriptionStep
  dsimp only
  repeat' split
  all_goals refine ⟨?_, ?_, ?_⟩
  · exact ⟨_, rfl⟩
  · intro hs; simp [failStep] at hs
  · simp [progressPercents, Event.percent?]
  · exact ⟨_, rfl⟩
  · intro hs; simp [failStep] at hs
  · simp [progressPercents, Event.percent?]
  · rw [show orchPercents ([Event.progress taskId 30 "开始音频转录"
        (some "transcription") false] ++ (transcribeAudioTask env taskId
        (asStr (exD.getN "audio_file_path")) (opts.getN "language") t n).evts) =
      orchPercents [Event.progress taskId 30 "开始音频转录" (some "transcription") false] ++
        orchPercents (transcribeAudioTask env taskId
          (asStr (exD.getN "audio_file_path")) (opts.getN "language") t n).evts
      from orchPercents_append _ _, ho]
    exact ⟨_, rfl⟩
  · intro hs; simp [failStep] at hs
  · intro p hp
    rw [progressPercents_append] at hp
    rcases List.mem_append.mp hp with hp | hp
    · simp [progressPercents, Event.percent?] at hp
      omega
    · exact hb p hp
  · rw [orchPercents_append, orchPercents_append, ho]
    exact ⟨_, rfl⟩
  · intro hs
    rw [orchPercents_append, orchPercents_append, ho]
    rfl
  · intro p hp
    rw [progressPercents_append, progressPercents_append] at hp
    rcases List.mem_append.mp hp with hp | hp
    · rcases List.mem_append.mp hp with hp | hp
      · simp [progressPercents, Event.percent?] at hp
        omega
      · exact hb p hp
    · simp [progressPercents, Event.percent?] at hp
      omega

/-- Helper: `_run_content_analysis` emits no orchestrator ticks of its own. -/
theorem contentRunner_orch (env : Env) (taskId : String) (exD trD opts : PyVal)
    (t : TaskRecord) (n : ℕ) :
    orchPercents (runContentAnalysis env taskId exD trD opts t n).evts = [] ∧
    ∀ p ∈ progressPercents (runContentAnalysis env taskId exD trD opts t n).evts,
      p ≤ 100 := by
  obtain ⟨ho, hb⟩ := contentTask_ticks env taskId trD (exD.getN "video_info") t n
  unfold runContentAnalysis
  dsimp only
  repeat' split
  all_goals first
  | exact ⟨rfl, by simp [progressPercents, Event.percent?]⟩
  | exact ⟨ho, hb⟩

/-- Helper: `_run_comment_analysis` emits no orchestrator ticks of its own. -/
theorem commentRunner_orch (env : Env) (taskId : String) (exD opts : PyVal)
    (t : TaskRecord) (n : ℕ) :
    orchPercents (runCommentAnalysis env taskId exD opts t n).evts = [] ∧
    ∀ p ∈ progressPercents (runCommentAnalysis env taskId exD opts t n).evts,
      p ≤ 100 := by
  obtain ⟨ho, hb⟩ := commentTask_ticks env taskId (asStr (exD.getN "video_id"))
    (exD.getN "comments") t n
  unfold runCommentAnalysis
  dsimp only
  repeat' split
  all_goals first
  | exact ⟨rfl, by simp [progressPercents, Event.percent?]⟩
  | exact ⟨ho, hb⟩

/-- Helper: the parallel step's orchestrator ticks are the bracketing 60/85
(both on success), bounded by 100. -/
theorem parallel_orch (env : Env) (taskId : String) (exD trD opts : PyVal)
    (t : TaskRecord) (n : ℕ) :
    orchPercents (runParallelAnalysisSteps env taskId exD trD opts t n).evts <+: [60, 85] ∧
    ((∃ pr, (runParallelAnalysisSteps env taskId exD trD opts t n).val = .ok pr) →
      orchPercents (runParallelAnalysisSteps env taskId exD trD opts t n).evts = [60, 85]) ∧
    ∀ p ∈ progressPercents (runParallelAnalysisSteps env taskId exD trD opts t n).evts,
      p ≤ 100 := by
  obtain ⟨hoc, hbc⟩ := contentRunner_orch env taskId exD trD opts t n
  obtain ⟨hok, hbk⟩ := commentRunner_orch env taskId exD opts
    (runContentAnalysis env taskId exD trD opts t n).task
    (runContentAnalysis env taskId exD trD opts t n).now
  unfold runParallelAnalysisSteps
  dsimp only
  split
  · refine ⟨⟨_, rfl⟩, ?_, by simp [progressPercents, Event.percent?]⟩
    intro ⟨pr, hpr⟩
    simp at hpr
  · refine ⟨?_, ?_, ?_⟩
    · rw [orchPercents_append, orchPercents_append, orchPercents_append, hoc, hok]
      exact ⟨_, rfl⟩
    · intro _
      rw [orchPercents_append, orchPercents_append, orchPercents_append, hoc, hok]
      rfl
    · intro p hp
      rw [progressPercents_append, progressPercents_append,
        progressPercents_append] at hp
      rcases List.mem_append.mp hp with hp | hp
      · rcases List.mem_append.mp hp with hp | hp
        · rcases List.mem_append.mp hp with hp | hp
          · simp [progressPercents, Event.percent?] at hp
            omega
          · exact hbc p hp
        · exact hbk p hp
      · simp [progressPercents, Event.percent?] at hp
        omega

/-- Helper: the finalization runner's orchestrator ticks follow the
schedule 90/100 (all of it on success), bounded by 100. -/
theorem finalization_orch (env : Env) (taskId : String)
    (srs : List (AnalysisStep × StepResult)) (opts : PyVal)
    (t : TaskRecord) (n : ℕ) :
    orchPercents (runFinalizationStep env taskId srs opts t n).evts <+: [90, 100] ∧
    ((runFinalizationStep env taskId srs opts t n).val.success = true →
      orchPercents (runFinalizationStep env taskId srs opts t n).evts = [90, 100]) ∧
    ∀ p ∈ progressPercents (runFinalizationStep env taskId srs opts t n).evts,
      p ≤ 100 := by
  unfold runFinalizationStep
  dsimp only
  split
  · refine ⟨⟨_, rfl⟩, ?_, by simp [progressPercents, Event.percent?]⟩
    intro hs
    simp [failStep] at hs
  · exact ⟨⟨_, rfl⟩, fun _ => rfl, by simp [progressPercents, Event.percent?]⟩

/-- Prefixes extend across a shared left factor. -/
theorem prefix_step (A : List ℕ) {l B : List ℕ} (h : l <+: B) : A ++ l <+: A ++ B := by
  obtain ⟨w, hw⟩ := h
  exact ⟨w, by rw [List.append_assoc, hw]⟩

/-- Helper: the `except` clause of `run_analysis` adds no progress events. -/
theorem orch_failFinish (taskId : String) (e : PyErr)
    (srs : List (AnalysisStep × StepResult)) (acc : List Event)
    (t : TaskRecord) (n : ℕ) :
    orchPercents (failFinish taskId e srs acc t n).evts = orchPercents acc ∧
    progressPercents (failFinish taskId e srs acc t n).evts = progressPercents acc := by
  unfold failFinish
  dsimp only
  constructor
  · rw [orchPercents_append]
    simp [orchPercents, Event.orchPercent?]
  · rw [progressPercents_append]
    simp [progressPercents, Event.percent?]

/-- Claim C1, amended: in every run, every delivered progress percentage is
at most 100 (and at least 0, the percentages being naturals), and the ticks
the orchestrator itself emits follow the fixed non-decreasing schedule
5/10/15/20/25/30/55/60/85/90/100 (a prefix of it), hence are monotone; the
sub-task ticks break global monotonicity (see the counterexample). -/
theorem C1_progress_bounded_and_orchestrator_monotone :
    ∀ (env : Env) (taskId url : String) (opts : PyVal) (t : TaskRecord) (n : ℕ),
      (∀ p ∈ progressPercents (runAnalysis env taskId url opts t n).evts, p ≤ 100) ∧
      orchPercents (runAnalysis env taskId url opts t n).evts <+:
        [5, 10, 15, 20, 25, 30, 55, 60, 85, 90, 100] ∧
      List.Chain' (fun a b => a ≤ b)
        (orchPercents (runAnalysis env taskId url opts t n).evts) := by
  intro env taskId url opts t n
  have master_chain : List.Chain' (fun a b : ℕ => a ≤ b)
      [5, 10, 15, 20, 25, 30, 55, 60, 85, 90, 100] := by
    simp [List.chain'_cons]
  suffices h : (∀ p ∈ progressPercents (runAnalysis env taskId url opts t n).evts,
      p ≤ 100) ∧ orchPercents (runAnalysis env taskId url opts t n).evts <+:
        [5, 10, 15, 20, 25, 30, 55, 60, 85, 90, 100] by
    exact ⟨h.1, h.2, master_chain.prefix h.2⟩
  have hu : updateTaskStatus taskId .processing (some "开始分析") false t n =
      ⟨(), [Event.dbWrite taskId procWrite], dbApply procWrite t, n⟩ := rfl
  obtain ⟨pEx, sEx, bEx⟩ := extraction_orch env taskId url opts (dbApply procWrite t) n
  unfold runAnalysis
  rw [hu]
  dsimp only
  cases hex : (runExtractionStep env taskId url opts (dbApply procWrite t) n).val.success with
  | false =>
    simp only [hex, Bool.false_eq_true, not_false_eq_true, if_true, reduceIte]
    obtain ⟨ho, hb⟩ := orch_failFinish taskId
      (.externalService ("数据提取失败: " ++
        ((runExtractionStep env taskId url opts (dbApply procWrite t) n).val.error.getD "None")))
      [(AnalysisStep.extraction, (runExtractionStep env taskId url opts (dbApply procWrite t) n).val)]
      ([Event.dbWrite taskId procWrite] ++
        (runExtractionStep env taskId url opts (dbApply procWrite t) n).evts)
      (runExtractionStep env taskId url opts (dbApply procWrite t) n).task
      (runExtractionStep env taskId url opts (dbApply procWrite t) n).now
    rw [ho, hb]
    constructor
    · intro p hp
      rw [progressPercents_append] at hp
      rcases List.mem_append.mp hp with hp | hp
      · simp [progressPercents, Event.percent?] at hp
      · exact bEx p hp
    · rw [orchPercents_append]
      show ([] : List ℕ) ++ orchPercents
        (runExtractionStep env taskId url opts (dbApply procWrite t) n).evts <+: _
      rw [List.nil_append]
      exact pEx.trans ⟨[30, 55, 60, 85, 90, 100], rfl⟩
  | true =>
    simp only [hex, not_true_eq_false, Bool.false_eq_true, if_false, reduceIte]
    have hproc : orchPercents [Event.dbWrite taskId procWrite] = [] := rfl
    have hprocP : progressPercents [Event.dbWrite taskId procWrite] = [] := rfl
    obtain ⟨pTr, sTr, bTr⟩ := transcription_orch env taskId
      (stepDataPy (runExtractionStep env taskId url opts (dbApply procWrite t) n).val)
      opts (runExtractionStep env taskId url opts (dbApply procWrite t) n).task
      (runExtractionStep env taskId url opts (dbApply procWrite t) n).now
    cases htr : (runTranscriptionStep env taskId
        (stepDataPy (runExtractionStep env taskId url opts (dbApply procWrite t) n).val)
        opts (runExtractionStep env taskId url opts (dbApply procWrite t) n).task
        (runExtractionStep env taskId url opts (dbApply procWrite t) n).now).val.success with
    | false =>
      simp only [htr, Bool.false_eq_true, not_false_eq_true, if_true, reduceIte]
      obtain ⟨ho, hb⟩ := orch_failFinish taskId _ _ _ _ _
      rw [ho, hb]
      constructor
      · intro p hp
        rw [progressPercents_append, progressPercents_append, hprocP,
          List.nil_append] at hp
        rcases List.mem_append.mp hp with hp | hp
        · exact bEx p hp
        · exact bTr p hp
      · rw [orchPercents_append, orchPercents_append, hproc, List.nil_append,
          sEx hex]
        exact prefix_step [5, 10, 15, 20, 25] (pTr.trans ⟨[60, 85, 90, 100], rfl⟩)
    | true =>
      simp only [htr, not_true_eq_false, Bool.false_eq_true, if_false, reduceIte]
      obtain ⟨pPar, sPar, bPar⟩ := parallel_orch env taskId
        (stepDataPy (runExtractionStep env taskId url opts (dbApply procWrite t) n).val) (stepDataPy (runTranscriptionStep env taskId (stepDataPy (runExtractionStep env taskId url opts (dbApply procWrite t) n).val) opts (runExtractionStep env taskId url opts (dbApply procWrite t) n).task (runExtractionStep env taskId url opts (dbApply procWrite t) n).now).val) opts
        (runTranscriptionStep env taskId (stepDataPy (runExtractionStep env taskId url opts (dbApply procWrite t) n).val) opts (runExtractionStep env taskId url opts (dbApply procWrite t) n).task (runExtractionStep env taskId url opts (dbApply procWrite t) n).now).task (runTranscriptionStep env taskId (stepDataPy (runExtractionStep env taskId url opts (dbApply procWrite t) n).val) opts (runExtractionStep env taskId url opts (dbApply procWrite t) n).task (runExtractionStep env taskId url opts (dbApply procWrite t) n).now).now
      cases hpar : (runParallelAnalysisSteps env taskId (stepDataPy (runExtractionStep env taskId url opts (dbApply procWrite t) n).val) (stepDataPy (runTranscriptionStep env taskId (stepDataPy (runExtractionStep env taskId url opts (dbApply procWrite t) n).val) opts (runExtractionStep env taskId url opts (dbApply procWrite t) n).task (runExtractionStep env taskId url opts (dbApply procWrite t) n).now).val) opts (runTranscriptionStep env taskId (stepDataPy (runExtractionStep env taskId url opts (dbApply procWrite t) n).val) opts (runExtractionStep env taskId url opts (dbApply procWrite t) n).task (runExtractionStep env taskId url opts (dbApply procWrite t) n).now).task (runTranscriptionStep env taskId (stepDataPy (runExtractionStep env taskId url opts (dbApply procWrite t) n).val) opts (runExtractionStep env taskId url opts (dbApply procWrite t) n).task (runExtractionStep env taskId url opts (dbApply procWrite t) n).now).now).val with
      | error e =>
        simp only [hpar]
        obtain ⟨ho, hb⟩ := orch_failFinish taskId _ _ _ _ _
        rw [ho, hb]
        constructor
        · intro p hp
          rw [progressPercents_append, progressPercents_append,
            progressPercents_append, hprocP, List.nil_append] at hp
          rcases List.mem_append.mp hp with hp | hp
          · rcases List.mem_append.mp hp with hp | hp
            · exact bEx p hp
            · exact bTr p hp
          · exact bPar p hp
        · rw [orchPercents_append, orchPercents_append, orchPercents_append,
            hproc, List.nil_append, sEx hex, sTr htr, List.append_assoc]
          exact prefix_step [5, 10, 15, 20, 25]
            (prefix_step [30, 55] (pPar.trans ⟨[90, 100], rfl⟩))
      | ok pr =>
        simp only [hpar]
        obtain ⟨pFin, sFin, bFin⟩ := finalization_orch env taskId
          ([(AnalysisStep.extraction, (runExtractionStep env taskId url opts (dbApply procWrite t) n).val)] ++ [(AnalysisStep.transcription, (runTranscriptionStep env taskId (stepDataPy (runExtractionStep env taskId url opts (dbApply procWrite t) n).val) opts (runExtractionStep env taskId url opts (dbApply procWrite t) n).task (runExtractionStep env taskId url opts (dbApply procWrite t) n).now).val)] ++ [(AnalysisStep.contentAnalysis, pr.1), (AnalysisStep.commentAnalysis, pr.2)]) opts (runParallelAnalysisSteps env taskId (stepDataPy (runExtractionStep env taskId url opts (dbApply procWrite t) n).val) (stepDataPy (runTranscriptionStep env taskId (stepDataPy (runExtractionStep env taskId url opts (dbApply procWrite t) n).val) opts (runExtractionStep env taskId url opts (dbApply procWrite t) n).task (runExtractionStep env taskId url opts (dbApply procWrite t) n).now).val) opts (runTranscriptionStep env taskId (stepDataPy (runExtractionStep env taskId url opts (dbApply procWrite t) n).val) opts (runExtractionStep env taskId url opts (dbApply procWrite t) n).task (runExtractionStep env taskId url opts (dbApply procWrite t) n).now).task (runTranscriptionStep env taskId (stepDataPy (runExtractionStep env taskId url opts (dbApply procWrite t) n).val) opts (runExtractionStep env taskId url opts (dbApply procWrite t) n).task (runExtractionStep env taskId url opts (dbApply procWrite t) n).now).now).task (runParallelAnalysisSteps env taskId (stepDataPy (runExtractionStep env taskId url opts (dbApply procWrite t) n).val) (stepDataPy (runTranscriptionStep env taskId (stepDataPy (runExtractionStep env taskId url opts (dbApply procWrite t) n).val) opts (runExtractionStep env taskId url opts (dbApply procWrite t) n).task (runExtractionStep env taskId url opts (dbApply procWrite t) n).now).val) opts (runTranscriptionStep env taskId (stepDataPy (runExtractionStep env taskId url opts (dbApply procWrite t) n).val) opts (runExtractionStep env taskId url opts (dbApply procWrite t) n).task (runExtractionStep env taskId url opts (dbApply procWrite t) n).now).task (runTranscriptionStep env taskId (stepDataPy (runExtractionStep env taskId url opts (dbApply procWrite t) n).val) opts (runExtractionStep env taskId url opts (dbApply procWrite t) n).task (runExtractionStep env taskId url opts (dbApply procWrite t) n).now).now).now
        cases hfin : (runFinalizationStep env taskId ([(AnalysisStep.extraction, (runExtractionStep env taskId url opts (dbApply procWrite t) n).val)] ++ [(AnalysisStep.transcription, (runTranscriptionStep env taskId (stepDataPy (runExtractionStep env taskId url opts (dbApply procWrite t) n).val) opts (runExtractionStep env taskId url opts (dbApply procWrite t) n).task (runExtractionStep env taskId url opts (dbApply procWrite t) n).now).val)] ++ [(AnalysisStep.contentAnalysis, pr.1), (AnalysisStep.commentAnalysis, pr.2)]) opts (runParallelAnalysisSteps env taskId (stepDataPy (runExtractionStep env taskId url opts (dbApply procWrite t) n).val) (stepDataPy (runTranscriptionStep env taskId (stepDataPy (runExtractionStep env taskId url opts (dbApply procWrite t) n).val) opts (runExtractionStep env taskId url opts (dbApply procWrite t) n).task (runExtractionStep env taskId url opts (dbApply procWrite t) n).now).val) opts (runTranscriptionStep env taskId (stepDataPy (runExtractionStep env taskId url opts (dbApply procWrite t) n).val) opts (runExtractionStep env taskId url opts (dbApply procWrite t) n).task (runExtractionStep env taskId url opts (dbApply procWrite t) n).now).task (runTranscriptionStep env taskId (stepDataPy (runExtractionStep env taskId url opts (dbApply procWrite t) n).val) opts (runExtractionStep env taskId url opts (dbApply procWrite t) n).task (runExtractionStep env taskId url opts (dbApply procWrite t) n).now).now).task (runParallelAnalysisSteps env taskId (stepDataPy (runExtractionStep env taskId url opts (dbApply procWrite t) n).val) (stepDataPy (runTranscriptionStep env taskId (stepDataPy (runExtractionStep env taskId url opts (dbApply procWrite t) n).val) opts (runExtractionStep env taskId url opts (dbApply procWrite t) n).task (runExtractionStep env taskId url opts (dbApply procWrite t) n).now).val) opts (runTranscriptionStep env taskId (stepDataPy (runExtractionStep env taskId url opts (dbApply procWrite t) n).val) opts (runExtractionStep env taskId url opts (dbApply procWrite t) n).task (runExtractionStep env taskId url opts (dbApply procWrite t) n).now).task (runTranscriptionStep env taskId (stepDataPy (runExtractionStep env taskId url opts (dbApply procWrite t) n).val) opts (runExtractionStep env taskId url opts (dbApply procWrite t) n).task (runExtractionStep env taskId url opts (dbApply procWrite t) n).now).now).now).val.success with
        | false =>
          simp only [hfin, Bool.false_eq_true, not_false_eq_true, if_true, reduceIte]
          obtain ⟨ho, hb⟩ := orch_failFinish taskId _ _ _ _ _
          rw [ho, hb]
          constructor
          · intro p hp
            rw [progressPercents_append, progressPercents_append,
              progressPercents_append, progressPercents_append, hprocP,
              List.nil_append] at hp
            rcases List.mem_append.mp hp with hp | hp
            · rcases List.mem_append.mp hp with hp | hp
              · rcases List.mem_append.mp hp with hp | hp
                · exact bEx p hp
                · exact bTr p hp
              · exact bPar p hp
            · exact bFin p hp
          · rw [orchPercents_append, orchPercents_append, orchPercents_append,
              orchPercents_append, hproc, List.nil_append, sEx hex, sTr htr,
              sPar ⟨pr, hpar⟩, List.append_assoc, List.append_assoc]
            exact prefix_step [5, 10, 15, 20, 25] (prefix_step [30, 55]
              (prefix_step [60, 85] pFin))
        | true =>
          simp only [hfin, not_true_eq_false, Bool.false_eq_true, if_false, reduceIte]
          have hu2o : ∀ (X : TaskRecord) (Y : ℕ), orchPercents (updateTaskStatus
            taskId TaskStatus.completed (some "分析完成") true X Y).evts = [] :=
            fun _ _ => rfl
          have hu2p : ∀ (X : TaskRecord) (Y : ℕ), progressPercents (updateTaskStatus
            taskId TaskStatus.completed (some "分析完成") true X Y).evts = [] :=
            fun _ _ => rfl
          have htco : ∀ D, orchPercents [Event.taskCompleted taskId D] = [] :=
            fun _ => rfl
          have htcp : ∀ D, progressPercents [Event.taskCompleted taskId D] = [] :=
            fun _ => rfl
          constructor
          · intro p hp
            rw [progressPercents_append, progressPercents_append,
              progressPercents_append, progressPercents_append,
              progressPercents_append, progressPercents_append, hprocP,
              List.nil_append, hu2p, List.append_nil, htcp, List.append_nil] at hp
            rcases List.mem_append.mp hp with hp | hp
            · rcases List.mem_append.mp hp with hp | hp
              · rcases List.mem_append.mp hp with hp | hp
                · exact bEx p hp
                · exact bTr p hp
              · exact bPar p hp
            · exact bFin p hp
          · rw [orchPercents_append, orchPercents_append, orchPercents_append,
              orchPercents_append, orchPercents_append, orchPercents_append,
              hproc, List.nil_append, hu2o, List.append_nil, htco, List.append_nil,
              sEx hex, sTr htr, sPar ⟨pr, hpar⟩, sFin hfin]
            exact ⟨[], by simp⟩

/-- Witness for C1's amended theorem at the all-success environment. -/
theorem C1_witness :
    (100 : ℕ) ∈ progressPercents
      (runAnalysis envAllOk "task-1" "url" optsLang initialTask 0).evts ∧
    (100 : ℕ) ≤ 100 ∧
    List.Chain' (fun a b => a ≤ b)
      (orchPercents (runAnalysis envAllOk "task-1" "url" optsLang initialTask 0).evts) := by
  have h := C1_progress_bounded_and_orchestrator_monotone envAllOk "task-1" "url"
    optsLang initialTask 0
  have hm : (100 : ℕ) ∈ progressPercents
      (runAnalysis envAllOk "task-1" "url" optsLang initialTask 0).evts := by
    rw [show progressPercents (runAnalysis envAllOk "task-1" "url" optsLang
        initialTask 0).evts =
      [5, 10, 15, 20, 25, 30, 10, 20, 40, 80, 100, 55, 60, 85, 95, 10, 20, 40,
        80, 100, 85, 90, 100] from rfl]
    simp
  exact ⟨hm, h.1 100 hm, h.2.2⟩

/-- The all-success environment with the two analysis payloads left
symbolic: `cp` is the content-analysis task's `analysis_result` value and
`ci` the comment-analysis insights (the transcript is `transcriptOk`). -/
def envOkWith (cp : PyVal) (ci : CommentInsights) : Env := { envAllOk with
  contentAnalyze := fun _ _ => .ok cp
  commentAnalyze := fun _ _ => .ok ci }

/-- The extraction-data dict produced by `_run_extraction_step` under the
all-success collaborators. -/
def exDataOk : PyVal := PyVal.obj [
  ("video_info", .obj [
    ("id", .str "vid123"),
    ("title", .str "Test Video"),
    ("description", .str "desc"),
    ("channel_id", .str "ch1"),
    ("channel_title", .str "Test Channel"),
    ("duration", .num 300),
    ("view_count", .num 1000),
    ("like_count", .num 100),
    ("published_at", .str "2024-01-01"),
    ("thumbnail_url", .str "thumb"),
    ("language", PyVal.none)]),
  ("audio_file_path", .str "audio-vid123.mp3"),
  ("comments", .list [commentToPy commentOk]),
  ("video_id", .str "vid123")]

/-- The COMPLETED update statement of `run_analysis`. -/
def complWrite : DbWrite := { DbWrite.empty with
  status := some TaskStatus.completed
  currentStep := some (some "分析完成")
  completedAt := true }

/-- `result_data` after the transcription sub-task's merge. -/
def mergedTrans : PyVal :=
  PyVal.obj [("transcription", transcriptionResultPy transcriptOk)]

/-- `result_data` after the content-analysis sub-task's merge. -/
def mergedContent (cp : PyVal) : PyVal :=
  PyVal.obj [("transcription", transcriptionResultPy transcriptOk),
    ("content_analysis", cp)]

/-- `result_data` after the comment-analysis sub-task's merge. -/
def mergedComment (cp : PyVal) (ci : CommentInsights) : PyVal :=
  PyVal.obj [("transcription", transcriptionResultPy transcriptOk),
    ("content_analysis", cp),
    ("comment_analysis", commentInsightsToResult ci)]

/-- The step-result map handed to the finalization step in a fully
successful run under `envOkWith`. -/
def sr4Of (cp : PyVal) (ci : CommentInsights) (n : ℕ) :
    List (AnalysisStep × StepResult) :=
  [(AnalysisStep.extraction, okStep AnalysisStep.extraction exDataOk (n + 3 - n)),
   (AnalysisStep.transcription, okStep AnalysisStep.transcription
     (transcriptionResultPy transcriptOk) (n + 4 - (n + 3))),
   (AnalysisStep.contentAnalysis, okStep AnalysisStep.contentAnalysis cp
     (n + 5 - (n + 4))),
   (AnalysisStep.commentAnalysis, okStep AnalysisStep.commentAnalysis
     (commentInsightsToResult ci) (n + 7 - (n + 5)))]

/-- The task row as it stands when the finalization step starts in a fully
successful run under `envOkWith`. -/
def preFinTask (cp : PyVal) (ci : CommentInsights) : TaskRecord :=
  ⟨TaskStatus.processing, some "content_analysis", some 95,
    some (mergedComment cp ci), Option.none, false⟩

/-- The event trace of a fully successful run under `envOkWith`, up to the
start of the finalization step. -/
def accEvts (cp : PyVal) (ci : CommentInsights) (taskId : String) : List Event :=
  [Event.dbWrite taskId procWrite,
   Event.progress taskId 5 "初始化YouTube提取器" (some "extraction") false,
   Event.progress taskId 10 "获取视频信息" (some "extraction") false,
   Event.progress taskId 15 "下载音频文件" (some "extraction") false,
   Event.progress taskId 20 "获取评论数据" (some "extraction") false,
   Event.progress taskId 25 "数据提取完成" (some "extraction") false,
   Event.progress taskId 30 "开始音频转录" (some "transcription") false,
   Event.progress taskId 10 "初始化转录服务" (some "初始化转录服务") true,
   Event.progress taskId 20 "检测音频语言" (some "语言检测") true,
   Event.progress taskId 40 "开始音频转录" (some "音频转录") true,
   Event.progress taskId 80 "处理转录结果" (some "结果处理") true,
   Event.dbWrite taskId { DbWrite.empty with resultData := some mergedTrans },
   Event.progress taskId 100 "转录完成" Option.none true,
   Event.progress taskId 55 "音频转录完成" (some "transcription") false,
   Event.progress taskId 60 "开始内容和评论分析" Option.none false,
   Event.dbWrite taskId { DbWrite.empty with
     status := some TaskStatus.processing
     currentStep := some (some "content_analysis")
     progressCol := some 85 },
   Event.progress taskId 85 "Starting content analysis..."
     (some "content_analysis") true,
   Event.dbWrite taskId { DbWrite.empty with
     resultData := some (mergedContent cp)
     progressCol := some 95 },
   Event.progress taskId 95 "Content analysis completed successfully"
     (some "content_analysis") true,
   Event.progress taskId 10 "初始化评论分析服务" (some "初始化评论分析") true,
   Event.progress taskId 20 "获取视频信息" (some "视频信息获取") true,
   Event.progress taskId 40 ("开始分析 " ++ toString (1 : Nat) ++ " 条评论")
     (some "评论分析") true,
   Event.progress taskId 80 "处理分析结果" (some "结果处理") true,
   Event.dbWrite taskId { DbWrite.empty with
     resultData := some (mergedComment cp ci) },
   Event.progress taskId 100 "评论分析完成" (some "分析完成") true,
   Event.progress taskId 85 "内容和评论分析完成" Option.none false]

/-- Claim C4, amended: in a fully successful run, `result_data` is written
exactly three times — by the transcription, content-analysis and
comment-analysis sub-tasks, each merging its own key into the accumulated
dict — and all three writes precede the COMPLETED status write; the task
ends COMPLETED with the three-key dict persisted, and from the finalization
step's first tick (the 90-percent progress event) onward no `result_data`
write occurs at all: the finalization step never writes `result_data`, the
report travelling only in the completion notification. -/
theorem C4_amended_result_data_writes (cp : PyVal) (ci : CommentInsights)
    (taskId url : String) (n : ℕ)
    (hok : (runAnalysis (envOkWith cp ci) taskId url optsLang initialTask n).val =
      .ok ()) :
    (runAnalysis (envOkWith cp ci) taskId url optsLang initialTask n).task.status =
      TaskStatus.completed ∧
    resultDataWrites
        (runAnalysis (envOkWith cp ci) taskId url optsLang initialTask n).evts =
      [mergedTrans, mergedContent cp, mergedComment cp ci] ∧
    (runAnalysis (envOkWith cp ci) taskId url optsLang initialTask n).task.resultData =
      some (mergedComment cp ci) ∧
    resultDataWrites
        ((runAnalysis (envOkWith cp ci) taskId url optsLang initialTask n).evts.takeWhile
          (fun ev => ev.statusWrite? != some TaskStatus.completed)) =
      [mergedTrans, mergedContent cp, mergedComment cp ci] ∧
    resultDataWrites
        ((runAnalysis (envOkWith cp ci) taskId url optsLang initialTask n).evts.dropWhile
          (fun ev => ev.orchPercent? != some 90)) = [] := by
  have spine : ∀ FIN : Out StepResult,
      runFinalizationStep (envOkWith cp ci) taskId (sr4Of cp ci n) optsLang
        (preFinTask cp ci) (n + 7) = FIN →
      runAnalysis (envOkWith cp ci) taskId url optsLang initialTask n =
        if ¬ FIN.val.success then
          failFinish taskId
            (.externalService ("报告生成失败: " ++ (FIN.val.error.getD "None")))
            (sr4Of cp ci n ++ [(AnalysisStep.finalization, FIN.val)])
            (accEvts cp ci taskId ++ FIN.evts) FIN.task FIN.now
        else
          ⟨.ok (),
            accEvts cp ci taskId ++ FIN.evts ++ [Event.dbWrite taskId complWrite] ++
              [Event.taskCompleted taskId (match FIN.val.data with
                | some d => if pyTruthy d then d else PyVal.obj []
                | Option.none => PyVal.obj [])],
            dbApply complWrite FIN.task, FIN.now⟩ := by
    rintro FIN rfl
    rfl
  cases hg : generateComprehensiveReport
      (stepDataOrEmpty (sr4Of cp ci n) AnalysisStep.extraction)
      (stepDataOrEmpty (sr4Of cp ci n) AnalysisStep.transcription)
      (stepDataOrEmpty (sr4Of cp ci n) AnalysisStep.contentAnalysis)
      (stepDataOrEmpty (sr4Of cp ci n) AnalysisStep.commentAnalysis)
      optsLang (n + 7) with
  | error e =>
    exfalso
    have hfin : runFinalizationStep (envOkWith cp ci) taskId (sr4Of cp ci n)
        optsLang (preFinTask cp ci) (n + 7) =
        ⟨failStep AnalysisStep.finalization e.msg (n + 7 - (n + 7)),
          [Event.progress taskId 90 "生成综合分析报告" (some "finalization") false],
          preFinTask cp ci, n + 7⟩ := by
      unfold runFinalizationStep
      dsimp only
      rw [hg]
    rw [spine _ hfin] at hok
    simp [failFinish, failStep] at hok
  | ok rep =>
    have hfin : runFinalizationStep (envOkWith cp ci) taskId (sr4Of cp ci n)
        optsLang (preFinTask cp ci) (n + 7) =
        ⟨okStep AnalysisStep.finalization rep (n + 7 - (n + 7)),
          [Event.progress taskId 90 "生成综合分析报告" (some "finalization") false,
           Event.progress taskId 100 "分析完成" (some "finalization") false],
          preFinTask cp ci, n + 7⟩ := by
      unfold runFinalizationStep
      dsimp only
      rw [hg]
    rw [spine _ hfin]
    exact ⟨rfl, rfl, rfl, rfl, rfl⟩

/-- Witness for C4's amended theorem at the concrete all-success payloads. -/
theorem C4_witness :
    (runAnalysis (envOkWith contentPayloadOk insightsOk) "task-1" "url" optsLang
      initialTask 0).val = Except.ok () ∧
    resultDataWrites (runAnalysis (envOkWith contentPayloadOk insightsOk) "task-1"
      "url" optsLang initialTask 0).evts =
      [mergedTrans, mergedContent contentPayloadOk,
        mergedComment contentPayloadOk insightsOk] := by
  have h := C4_amended_result_data_writes contentPayloadOk insightsOk "task-1"
    "url" 0 rfl
  exact ⟨rfl, h.2.1⟩
